import Mathlib

/-!
Verification of the swapchain / frame-lifecycle engine of the
HelloTriangle Vulkan application (src/HelloTriangle/main.cpp).

The per-frame loop (`drawFrame`), the recreation protocol
(`recreateSwapChain` / `cleanupSwapChain`) and the synchronization-object
lifecycle (`createSyncObjects` / `cleanup`) are embedded shallowly:
driver results become an input oracle, Vulkan calls become events in a
trace, and the mutable application object becomes an explicit state
record threaded through each function.
-/

namespace HelloTriangle

/-- Constant `MAX_FRAMES_IN_FLIGHT` from main.cpp line 36. -/
def MAX_FRAMES_IN_FLIGHT : Nat := 2

/-- The `VkResult` values the frame loop distinguishes: success,
`VK_SUBOPTIMAL_KHR`, `VK_ERROR_OUT_OF_DATE_KHR`, and any other
(failure) code. -/
inductive VkResult where
  | success
  | suboptimalKHR
  | errorOutOfDateKHR
  | errorOther (code : Nat)
deriving DecidableEq

/-- State of one in-flight fence as observable between loop iterations:
signaled; unsignaled but with a queue submission pending that will
signal it; or unsignaled with no pending signal (waiting would hang). -/
inductive FenceState where
  | signaled
  | pendingSignal
  | unsignaledIdle
deriving DecidableEq

/-- The per-slot binary semaphores of the application
(`imageAvailableSemaphores[k]`, `renderFinishedSemaphores[k]`). -/
inductive Semaphore where
  | imageAvailable (slot : Nat)
  | renderFinished (slot : Nat)
deriving DecidableEq

/-- The `VkSubmitInfo` fields drawFrame fills in (main.cpp 386-408). -/
structure SubmitInfo where
  waitSemaphores : List Semaphore
  signalSemaphores : List Semaphore
  fenceSlot : Nat
deriving DecidableEq

/-- The `VkPresentInfoKHR` fields drawFrame fills in (main.cpp 412-423). -/
structure PresentInfo where
  waitSemaphores : List Semaphore
  imageIndex : Nat
deriving DecidableEq

/-- The externally visible calls one `drawFrame` iteration makes. -/
inductive FrameEvent where
  | waitFence (slot : Nat)
  | acquireImage (slot : Nat) (generation : Nat) (signalSem : Semaphore)
  | updateUniform (slot : Nat)
  | resetFence (slot : Nat)
  | recordBuffer (slot : Nat) (imageIndex : Nat)
  | queueSubmit (info : SubmitInfo)
  | queuePresent (info : PresentInfo)
  | recreateEvent
deriving DecidableEq

/-- The mutable state of the frame loop: `currentFrame`,
`framebufferResized`, the identity (generation) of the current
swapchain, and the per-slot in-flight fence states. -/
structure LoopState where
  currentFrame : Nat
  framebufferResized : Bool
  swapChainGeneration : Nat
  inFlightFences : List FenceState
deriving DecidableEq

/-- Loop state right after `createSyncObjects`: every fence is created
with `VK_FENCE_CREATE_SIGNALED_BIT` (main.cpp 2034), `currentFrame = 0`,
`framebufferResized = false`. -/
def initialLoopState : LoopState :=
  { currentFrame := 0
    framebufferResized := false
    swapChainGeneration := 0
    inFlightFences := List.replicate MAX_FRAMES_IN_FLIGHT FenceState.signaled }

/-- Result of one `drawFrame` call: normal completion with a new state,
a thrown `std::runtime_error` with its message, or an unbounded block
inside `vkWaitForFences` (fence unsignaled with nothing pending). -/
inductive StepOutcome where
  | ok (s : LoopState)
  | fatal (msg : String)
  | blocked
deriving DecidableEq

/-- Driver oracle for one iteration: the `VkResult` of
`vkAcquireNextImageKHR`, the image index it reports, and the `VkResult`s
of `vkQueueSubmit` and `vkQueuePresentKHR`. -/
structure FrameInputs where
  acquireResult : VkResult
  imageIndex : Nat
  submitResult : VkResult
  presentResult : VkResult
deriving DecidableEq

/-- Shallow embedding of `drawFrame` (main.cpp 362-435): wait on the
slot fence, acquire (early return + recreation on
`VK_ERROR_OUT_OF_DATE_KHR`, throw on other failures), update uniforms,
reset the fence, record, submit (waiting `imageAvailable[cf]`, signaling
`renderFinished[cf]` and the slot fence), present (waiting
`renderFinished[cf]`; recreation on out-of-date / suboptimal /
`framebufferResized`, throw on other failures), then advance
`currentFrame = (currentFrame + 1) % MAX_FRAMES_IN_FLIGHT`. -/
def drawFrame (inp : FrameInputs) (s : LoopState) : List FrameEvent × StepOutcome :=
  let cf := s.currentFrame
  if s.inFlightFences.getD cf FenceState.unsignaledIdle = FenceState.unsignaledIdle then
    ([FrameEvent.waitFence cf], StepOutcome.blocked)
  else
    let sw := { s with inFlightFences := s.inFlightFences.set cf FenceState.signaled }
    let ev0 := [FrameEvent.waitFence cf,
                FrameEvent.acquireImage cf sw.swapChainGeneration (Semaphore.imageAvailable cf)]
    if inp.acquireResult = VkResult.errorOutOfDateKHR then
      (ev0 ++ [FrameEvent.recreateEvent],
       StepOutcome.ok { sw with swapChainGeneration := sw.swapChainGeneration + 1 })
    else if inp.acquireResult ≠ VkResult.success ∧ inp.acquireResult ≠ VkResult.suboptimalKHR then
      (ev0, StepOutcome.fatal "failed to acquire swap chain image!")
    else
      let s1 := { sw with inFlightFences := sw.inFlightFences.set cf FenceState.unsignaledIdle }
      let submitInfo : SubmitInfo :=
        { waitSemaphores := [Semaphore.imageAvailable cf]
          signalSemaphores := [Semaphore.renderFinished cf]
          fenceSlot := cf }
      let ev1 := ev0 ++ [FrameEvent.updateUniform cf, FrameEvent.resetFence cf,
                         FrameEvent.recordBuffer cf inp.imageIndex,
                         FrameEvent.queueSubmit submitInfo]
      if inp.submitResult ≠ VkResult.success then
        (ev1, StepOutcome.fatal "failed to submit draw command buffer!")
      else
        let s2 := { s1 with inFlightFences := s1.inFlightFences.set cf FenceState.pendingSignal }
        let presentInfo : PresentInfo :=
          { waitSemaphores := [Semaphore.renderFinished cf]
            imageIndex := inp.imageIndex }
        let ev2 := ev1 ++ [FrameEvent.queuePresent presentInfo]
        if inp.presentResult = VkResult.errorOutOfDateKHR ∨
           inp.presentResult = VkResult.suboptimalKHR ∨ s2.framebufferResized then
          (ev2 ++ [FrameEvent.recreateEvent],
           StepOutcome.ok { s2 with
             framebufferResized := false
             swapChainGeneration := s2.swapChainGeneration + 1
             currentFrame := (cf + 1) % MAX_FRAMES_IN_FLIGHT })
        else if inp.presentResult ≠ VkResult.success then
          (ev2, StepOutcome.fatal "failed to present swap chain image!")
        else
          (ev2, StepOutcome.ok { s2 with currentFrame := (cf + 1) % MAX_FRAMES_IN_FLIGHT })

/-- Result of running `mainLoop` over a finite list of per-iteration
driver inputs. -/
inductive RunResult where
  | finished (s : LoopState)
  | aborted (msg : String)
  | hung
deriving DecidableEq

/-- The `mainLoop` body iterated over a list of driver inputs; a thrown
exception ends the run immediately (the remaining inputs are unused). -/
def runLoop : List FrameInputs → LoopState → List FrameEvent × RunResult
  | [], s => ([], RunResult.finished s)
  | inp :: rest, s =>
    match drawFrame inp s with
    | (tr, StepOutcome.ok s2) =>
      let r := runLoop rest s2
      (tr ++ r.1, r.2)
    | (tr, StepOutcome.fatal msg) => (tr, RunResult.aborted msg)
    | (tr, StepOutcome.blocked) => (tr, RunResult.hung)

/-- Code `EXIT_SUCCESS` as returned by `main`. -/
def EXIT_SUCCESS : Nat := 0

/-- Code `EXIT_FAILURE` as returned by `main` from the catch block. -/
def EXIT_FAILURE : Nat := 1

/-- Function `main` (main.cpp 2082-2094): runs the app; a propagated exception is
caught, its message printed to stderr, and `EXIT_FAILURE` returned;
otherwise `EXIT_SUCCESS`.  `none` models a run that never terminates
(hung inside `vkWaitForFences`).  The returned pair is (exit code,
printed diagnostic). -/
def mainOutcome (inputs : List FrameInputs) : Option (Nat × Option String) :=
  match (runLoop inputs initialLoopState).2 with
  | RunResult.finished _ => some (EXIT_SUCCESS, none)
  | RunResult.aborted msg => some (EXIT_FAILURE, some msg)
  | RunResult.hung => none

/-- Driver inputs of a steady-state iteration: acquire, submit and
present all report `VK_SUCCESS`. -/
def steadyInput : FrameInputs :=
  { acquireResult := VkResult.success
    imageIndex := 0
    submitResult := VkResult.success
    presentResult := VkResult.success }

/-- Holds exactly on `queueSubmit` events. -/
def isSubmitEvent : FrameEvent → Bool
  | FrameEvent.queueSubmit _ => true
  | _ => false

/-- Holds exactly on `queuePresent` events. -/
def isPresentEvent : FrameEvent → Bool
  | FrameEvent.queuePresent _ => true
  | _ => false

/-! ## Resource model of the swapchain recreation protocol -/

/-- A `VkExtent2D`. -/
structure Extent2D where
  width : Nat
  height : Nat
deriving DecidableEq

/-- The maximum of uint32_t, used by `chooseSwapExtent`. -/
def UINT32_MAX : Nat := 4294967295

/-- The fields of `VkSurfaceCapabilitiesKHR` the source consults. -/
structure SurfaceCaps where
  minImageCount : Nat
  maxImageCount : Nat
  currentExtent : Extent2D
  minImageExtent : Extent2D
  maxImageExtent : Extent2D
deriving DecidableEq

/-- Function `chooseSwapExtent` (main.cpp 1000-1021): take
`capabilities.currentExtent` unless its width is `UINT32_MAX`, in which
case clamp the queried window framebuffer size to the allowed range. -/
def chooseSwapExtent (caps : SurfaceCaps) (windowSize : Extent2D) : Extent2D :=
  if caps.currentExtent.width ≠ UINT32_MAX then
    caps.currentExtent
  else
    { width := min (max windowSize.width caps.minImageExtent.width) caps.maxImageExtent.width
      height := min (max windowSize.height caps.minImageExtent.height) caps.maxImageExtent.height }

/-- Image count requested by `createSwapChain` (main.cpp 847-853):
`minImageCount + 1`, clamped to `maxImageCount` when that is non-zero
and exceeded. -/
def swapImageCount (caps : SurfaceCaps) : Nat :=
  let n := caps.minImageCount + 1
  if caps.maxImageCount > 0 ∧ n > caps.maxImageCount then caps.maxImageCount else n

/-- The Vulkan / GLFW calls the recreation and sync-object code makes,
with the handles they create or destroy. -/
inductive Action where
  | queryFramebufferSize (e : Extent2D)
  | waitEvents
  | deviceWaitIdle
  | destroyFramebuffer (h : Nat)
  | destroyImageView (h : Nat)
  | destroySwapchain (h : Nat)
  | createSwapchain (h : Nat)
  | createImageView (h : Nat)
  | createFramebuffer (h : Nat)
  | createSemaphore (h : Nat)
  | createFence (h : Nat)
  | destroySemaphore (h : Nat)
  | destroyFence (h : Nat)
deriving DecidableEq

/-- The handle-valued members of `HelloTriangleApplication`.  Handles
are modeled as naturals drawn from the fresh counter `nextHandle`. -/
structure AppState where
  swapChain : Nat
  swapChainImages : List Nat
  swapChainExtent : Extent2D
  swapChainImageViews : List Nat
  swapChainFramebuffers : List Nat
  renderPass : Nat
  descriptorSetLayout : Nat
  pipelineLayout : Nat
  graphicsPipeline : Nat
  commandPool : Nat
  commandBuffers : List Nat
  descriptorPool : Nat
  descriptorSets : List Nat
  imageAvailableSemaphores : List Nat
  renderFinishedSemaphores : List Nat
  inFlightFences : List Nat
  nextHandle : Nat
deriving DecidableEq

/-- Function `cleanupSwapChain` (main.cpp 2050-2060): destroy every framebuffer,
then every image view, then the swapchain.  The member vectors are not
cleared by the source; they keep the stale handles until recreated. -/
def cleanupSwapChain (s : AppState) : List Action × AppState :=
  (s.swapChainFramebuffers.map Action.destroyFramebuffer
     ++ s.swapChainImageViews.map Action.destroyImageView
     ++ [Action.destroySwapchain s.swapChain], s)

/-- Function `createSwapChain` (main.cpp 839-910): choose the extent and image
count from the surface capabilities, create the swapchain and fetch its
images. -/
def createSwapChain (caps : SurfaceCaps) (windowSize : Extent2D) (s : AppState) :
    List Action × AppState :=
  let extent := chooseSwapExtent caps windowSize
  let count := swapImageCount caps
  let hSw := s.nextHandle
  let images := (List.range count).map (fun i => hSw + 1 + i)
  ([Action.createSwapchain hSw],
   { s with swapChain := hSw
            swapChainImages := images
            swapChainExtent := extent
            nextHandle := hSw + 1 + count })

/-- Function `createImageViews` (main.cpp 1092-1125): one image view per
swapchain image. -/
def createImageViews (s : AppState) : List Action × AppState :=
  let views := (List.range s.swapChainImages.length).map (fun i => s.nextHandle + i)
  (views.map Action.createImageView,
   { s with swapChainImageViews := views
            nextHandle := s.nextHandle + s.swapChainImages.length })

/-- Function `createFramebuffers` (main.cpp 1409-1432): one framebuffer per
swapchain image view. -/
def createFramebuffers (s : AppState) : List Action × AppState :=
  let fbs := (List.range s.swapChainImageViews.length).map (fun i => s.nextHandle + i)
  (fbs.map Action.createFramebuffer,
   { s with swapChainFramebuffers := fbs
            nextHandle := s.nextHandle + s.swapChainImageViews.length })

/-- The `while (width == 0 || height == 0)` loop of `recreateSwapChain`
(main.cpp 2067-2070): given the last query result `e` and the remaining
framebuffer-size query results, emit one `glfwGetFramebufferSize` query
and one `glfwWaitEvents` per iteration until a query returns an extent
with non-zero width and height.  Returns `none` for the extent when the
supplied query results are exhausted while still degenerate (the real
loop would still be blocking). -/
def pollLoop (e : Extent2D) (sizes : List Extent2D) : List Action × Option Extent2D :=
  if e.width = 0 ∨ e.height = 0 then
    match sizes with
    | [] => ([], none)
    | e2 :: rest =>
      let p := pollLoop e2 rest
      (Action.queryFramebufferSize e2 :: Action.waitEvents :: p.1, p.2)
  else ([], some e)

/-- Function `recreateSwapChain` (main.cpp 2063-2079): query the framebuffer
size, block while it is degenerate, then `vkDeviceWaitIdle`,
`cleanupSwapChain`, `createSwapChain`, `createImageViews`,
`createFramebuffers`.  `sizes` supplies the successive results of
`glfwGetFramebufferSize`; the state result is `none` when the function
is still blocked in the degenerate-surface loop. -/
def recreateSwapChain (caps : SurfaceCaps) (windowSize : Extent2D) (sizes : List Extent2D)
    (s : AppState) : List Action × Option AppState :=
  match sizes with
  | [] => ([], none)
  | e0 :: rest =>
    let p := pollLoop e0 rest
    let qtr := Action.queryFramebufferSize e0 :: p.1
    match p.2 with
    | none => (qtr, none)
    | some _ =>
      let c := cleanupSwapChain s
      let csw := createSwapChain caps windowSize c.2
      let civ := createImageViews csw.2
      let cfb := createFramebuffers civ.2
      (qtr ++ Action.deviceWaitIdle :: (c.1 ++ csw.1 ++ civ.1 ++ cfb.1), some cfb.2)

/-- Function `createSyncObjects` (main.cpp 2022-2046): for each of the
`MAX_FRAMES_IN_FLIGHT` slots create an image-available semaphore, a
render-finished semaphore and a fence (the fence signaled). -/
def createSyncObjects (s : AppState) : List Action × AppState :=
  let ia := (List.range MAX_FRAMES_IN_FLIGHT).map (fun i => s.nextHandle + 3 * i)
  let rf := (List.range MAX_FRAMES_IN_FLIGHT).map (fun i => s.nextHandle + 3 * i + 1)
  let fe := (List.range MAX_FRAMES_IN_FLIGHT).map (fun i => s.nextHandle + 3 * i + 2)
  (((List.range MAX_FRAMES_IN_FLIGHT).map (fun i =>
      [Action.createSemaphore (s.nextHandle + 3 * i),
       Action.createSemaphore (s.nextHandle + 3 * i + 1),
       Action.createFence (s.nextHandle + 3 * i + 2)])).flatten,
   { s with imageAvailableSemaphores := ia
            renderFinishedSemaphores := rf
            inFlightFences := fe
            nextHandle := s.nextHandle + 3 * MAX_FRAMES_IN_FLIGHT })

/-- The sync-object part of full teardown (`cleanup`, main.cpp 327-331):
per slot destroy the render-finished semaphore, the image-available
semaphore and the fence; preceded, as in the source, by
`cleanupSwapChain` (main.cpp 299). -/
def cleanupTrace (s : AppState) : List Action :=
  (cleanupSwapChain s).1
    ++ ((List.range MAX_FRAMES_IN_FLIGHT).map (fun i =>
          [Action.destroySemaphore (s.renderFinishedSemaphores.getD i 0),
           Action.destroySemaphore (s.imageAvailableSemaphores.getD i 0),
           Action.destroyFence (s.inFlightFences.getD i 0)])).flatten

/-- Device-side ledger of currently existing swapchain-derived objects,
updated by each create/destroy call. -/
structure Ledger where
  liveFramebuffers : List Nat
  liveImageViews : List Nat
  liveSwapchains : List Nat
deriving DecidableEq

/-- Effect of one call on the ledger (destruction removes the handle,
creation appends it). -/
def applyAction (l : Ledger) : Action → Ledger
  | Action.destroyFramebuffer h => { l with liveFramebuffers := l.liveFramebuffers.erase h }
  | Action.destroyImageView h => { l with liveImageViews := l.liveImageViews.erase h }
  | Action.destroySwapchain h => { l with liveSwapchains := l.liveSwapchains.erase h }
  | Action.createFramebuffer h => { l with liveFramebuffers := l.liveFramebuffers ++ [h] }
  | Action.createImageView h => { l with liveImageViews := l.liveImageViews ++ [h] }
  | Action.createSwapchain h => { l with liveSwapchains := l.liveSwapchains ++ [h] }
  | _ => l

/-- Effect of a call trace on the ledger. -/
def applyTrace (l : Ledger) (tr : List Action) : Ledger := tr.foldl applyAction l

/-- The ledger holds exactly the objects the application state refers
to: nothing tracked is dead and nothing live is leaked. -/
def MatchesLedger (s : AppState) (l : Ledger) : Prop :=
  l.liveFramebuffers = s.swapChainFramebuffers ∧
  l.liveImageViews = s.swapChainImageViews ∧
  l.liveSwapchains = [s.swapChain]

/-- An action of the degenerate-surface block: a framebuffer-size query
or an event wait; touches no GPU object. -/
def BenignAction (a : Action) : Prop :=
  a = Action.waitEvents ∨ ∃ e, a = Action.queryFramebufferSize e

/-- An action creating or destroying a per-slot synchronization object. -/
def SyncObjAction (a : Action) : Prop :=
  (∃ h, a = Action.createSemaphore h) ∨ (∃ h, a = Action.createFence h) ∨
  (∃ h, a = Action.destroySemaphore h) ∨ (∃ h, a = Action.destroyFence h)


/-- Holds exactly on the recreation event. -/
def isRecreateEvent : FrameEvent → Bool
  | FrameEvent.recreateEvent => true
  | _ => false

/-- Invariant of the frame loop: the fence vector has one entry per
slot, `currentFrame` is a valid slot, and no slot fence is unsignaled
without a pending queue submission that will signal it. -/
def FenceInvariant (s : LoopState) : Prop :=
  s.inFlightFences.length = MAX_FRAMES_IN_FLIGHT ∧
  s.currentFrame < MAX_FRAMES_IN_FLIGHT ∧
  ∀ k, k < MAX_FRAMES_IN_FLIGHT →
    s.inFlightFences.getD k FenceState.unsignaledIdle ≠ FenceState.unsignaledIdle

/-- States reachable by the frame loop: the state right after
`createSyncObjects`, everything a successful `drawFrame` step reaches,
and the effect of the GLFW resize callback setting
`framebufferResized`. -/
inductive Reachable : LoopState → Prop where
  | init : Reachable initialLoopState
  | frame (inp : FrameInputs) {s s2 : LoopState} :
      Reachable s → (drawFrame inp s).2 = StepOutcome.ok s2 → Reachable s2
  | resize {s : LoopState} :
      Reachable s → Reachable { s with framebufferResized := true }


/-- An assignment of (abstract) times to the GPU-side executions of one
frame: when each semaphore is signaled, and when the submitted command
buffer and the present operation start executing. -/
structure GpuSchedule where
  semSignalTime : Semaphore → Nat
  submitExecTime : Nat
  presentExecTime : Nat

/-- A schedule consistent with the Vulkan semaphore semantics for the
submit and present structures of one frame: an execution gated on a
wait semaphore starts strictly after that semaphore is signaled, and a
semaphore listed in `pSignalSemaphores` is signaled strictly after the
gated execution starts (on its completion). -/
def ValidSchedule (si : SubmitInfo) (pinfo : PresentInfo) (sch : GpuSchedule) : Prop :=
  (∀ w ∈ si.waitSemaphores, sch.semSignalTime w < sch.submitExecTime) ∧
  (∀ g ∈ si.signalSemaphores, sch.submitExecTime < sch.semSignalTime g) ∧
  (∀ w ∈ pinfo.waitSemaphores, sch.semSignalTime w < sch.presentExecTime)



/-- A sample surface capability record (800x600, min 2 images, no
maximum) used to instantiate theorems at concrete inputs. -/
def sampleCaps : SurfaceCaps :=
  { minImageCount := 2, maxImageCount := 0,
    currentExtent := { width := 800, height := 600 },
    minImageExtent := { width := 1, height := 1 },
    maxImageExtent := { width := 4096, height := 4096 } }

/-- A sample window framebuffer size. -/
def sampleWin : Extent2D := { width := 800, height := 600 }

/-- A sample application state with one swapchain image, view and
framebuffer and two frame slots. -/
def sampleApp : AppState :=
  { swapChain := 1, swapChainImages := [2],
    swapChainExtent := { width := 640, height := 480 },
    swapChainImageViews := [3], swapChainFramebuffers := [4],
    renderPass := 5, descriptorSetLayout := 6, pipelineLayout := 7,
    graphicsPipeline := 8, commandPool := 9, commandBuffers := [10],
    descriptorPool := 11, descriptorSets := [12],
    imageAvailableSemaphores := [13, 14], renderFinishedSemaphores := [15, 16],
    inFlightFences := [17, 18], nextHandle := 19 }

/-- The state `sampleApp` reaches after one recreation against
`sampleCaps`. -/
def sampleApp1 : AppState :=
  { swapChain := 19, swapChainImages := [20, 21, 22],
    swapChainExtent := { width := 800, height := 600 },
    swapChainImageViews := [23, 24, 25], swapChainFramebuffers := [26, 27, 28],
    renderPass := 5, descriptorSetLayout := 6, pipelineLayout := 7,
    graphicsPipeline := 8, commandPool := 9, commandBuffers := [10],
    descriptorPool := 11, descriptorSets := [12],
    imageAvailableSemaphores := [13, 14], renderFinishedSemaphores := [15, 16],
    inFlightFences := [17, 18], nextHandle := 29 }

/-- The state `sampleApp1` reaches after a second recreation. -/
def sampleApp2 : AppState :=
  { swapChain := 29, swapChainImages := [30, 31, 32],
    swapChainExtent := { width := 800, height := 600 },
    swapChainImageViews := [33, 34, 35], swapChainFramebuffers := [36, 37, 38],
    renderPass := 5, descriptorSetLayout := 6, pipelineLayout := 7,
    graphicsPipeline := 8, commandPool := 9, commandBuffers := [10],
    descriptorPool := 11, descriptorSets := [12],
    imageAvailableSemaphores := [13, 14], renderFinishedSemaphores := [15, 16],
    inFlightFences := [17, 18], nextHandle := 39 }

/-- The device ledger matching `sampleApp`. -/
def sampleLedger : Ledger :=
  { liveFramebuffers := [4], liveImageViews := [3], liveSwapchains := [1] }

/-! ## Case characterizations of drawFrame -/

theorem drawFrame_blocked (inp : FrameInputs) (s : LoopState)
    (hf : s.inFlightFences.getD s.currentFrame FenceState.unsignaledIdle = FenceState.unsignaledIdle) :
    drawFrame inp s = ([FrameEvent.waitFence s.currentFrame], StepOutcome.blocked) := by
  unfold drawFrame
  rw [if_pos hf]

theorem drawFrame_staleAcquire (inp : FrameInputs) (s : LoopState)
    (hf : s.inFlightFences.getD s.currentFrame FenceState.unsignaledIdle ≠ FenceState.unsignaledIdle)
    (ha : inp.acquireResult = VkResult.errorOutOfDateKHR) :
    drawFrame inp s =
      ([FrameEvent.waitFence s.currentFrame,
        FrameEvent.acquireImage s.currentFrame s.swapChainGeneration
          (Semaphore.imageAvailable s.currentFrame),
        FrameEvent.recreateEvent],
       StepOutcome.ok { s with
         inFlightFences := s.inFlightFences.set s.currentFrame FenceState.signaled
         swapChainGeneration := s.swapChainGeneration + 1 }) := by
  unfold drawFrame
  rw [if_neg hf, if_pos ha]
  rfl

theorem drawFrame_presentSuccess (inp : FrameInputs) (s : LoopState)
    (hf : s.inFlightFences.getD s.currentFrame FenceState.unsignaledIdle ≠ FenceState.unsignaledIdle)
    (ha : inp.acquireResult = VkResult.success ∨ inp.acquireResult = VkResult.suboptimalKHR)
    (hs : inp.submitResult = VkResult.success)
    (hp : inp.presentResult = VkResult.success)
    (hr : s.framebufferResized = false) :
    drawFrame inp s =
      ([FrameEvent.waitFence s.currentFrame,
        FrameEvent.acquireImage s.currentFrame s.swapChainGeneration
          (Semaphore.imageAvailable s.currentFrame),
        FrameEvent.updateUniform s.currentFrame, FrameEvent.resetFence s.currentFrame,
        FrameEvent.recordBuffer s.currentFrame inp.imageIndex,
        FrameEvent.queueSubmit
          { waitSemaphores := [Semaphore.imageAvailable s.currentFrame]
            signalSemaphores := [Semaphore.renderFinished s.currentFrame]
            fenceSlot := s.currentFrame },
        FrameEvent.queuePresent
          { waitSemaphores := [Semaphore.renderFinished s.currentFrame]
            imageIndex := inp.imageIndex }],
       StepOutcome.ok { s with
         inFlightFences := s.inFlightFences.set s.currentFrame FenceState.pendingSignal
         currentFrame := (s.currentFrame + 1) % MAX_FRAMES_IN_FLIGHT }) := by
  unfold drawFrame
  rw [if_neg hf]
  rcases ha with ha | ha <;>
    simp [ha, hs, hp, hr, List.set_set]


theorem drawFrame_fatalAcquire (inp : FrameInputs) (s : LoopState)
    (hf : s.inFlightFences.getD s.currentFrame FenceState.unsignaledIdle ≠ FenceState.unsignaledIdle)
    (ha1 : inp.acquireResult ≠ VkResult.errorOutOfDateKHR)
    (ha2 : inp.acquireResult ≠ VkResult.success)
    (ha3 : inp.acquireResult ≠ VkResult.suboptimalKHR) :
    drawFrame inp s =
      ([FrameEvent.waitFence s.currentFrame,
        FrameEvent.acquireImage s.currentFrame s.swapChainGeneration
          (Semaphore.imageAvailable s.currentFrame)],
       StepOutcome.fatal "failed to acquire swap chain image!") := by
  unfold drawFrame
  rw [if_neg hf, if_neg ha1, if_pos ⟨ha2, ha3⟩]

theorem drawFrame_submitFatal (inp : FrameInputs) (s : LoopState)
    (hf : s.inFlightFences.getD s.currentFrame FenceState.unsignaledIdle ≠ FenceState.unsignaledIdle)
    (ha : inp.acquireResult = VkResult.success ∨ inp.acquireResult = VkResult.suboptimalKHR)
    (hs : inp.submitResult ≠ VkResult.success) :
    drawFrame inp s =
      ([FrameEvent.waitFence s.currentFrame,
        FrameEvent.acquireImage s.currentFrame s.swapChainGeneration
          (Semaphore.imageAvailable s.currentFrame),
        FrameEvent.updateUniform s.currentFrame, FrameEvent.resetFence s.currentFrame,
        FrameEvent.recordBuffer s.currentFrame inp.imageIndex,
        FrameEvent.queueSubmit
          { waitSemaphores := [Semaphore.imageAvailable s.currentFrame]
            signalSemaphores := [Semaphore.renderFinished s.currentFrame]
            fenceSlot := s.currentFrame }],
       StepOutcome.fatal "failed to submit draw command buffer!") := by
  unfold drawFrame
  rw [if_neg hf]
  rcases ha with ha | ha <;> simp [ha, hs]

theorem drawFrame_presentRecreate (inp : FrameInputs) (s : LoopState)
    (hf : s.inFlightFences.getD s.currentFrame FenceState.unsignaledIdle ≠ FenceState.unsignaledIdle)
    (ha : inp.acquireResult = VkResult.success ∨ inp.acquireResult = VkResult.suboptimalKHR)
    (hs : inp.submitResult = VkResult.success)
    (hp : inp.presentResult = VkResult.errorOutOfDateKHR ∨
          inp.presentResult = VkResult.suboptimalKHR ∨ s.framebufferResized = true) :
    drawFrame inp s =
      ([FrameEvent.waitFence s.currentFrame,
        FrameEvent.acquireImage s.currentFrame s.swapChainGeneration
          (Semaphore.imageAvailable s.currentFrame),
        FrameEvent.updateUniform s.currentFrame, FrameEvent.resetFence s.currentFrame,
        FrameEvent.recordBuffer s.currentFrame inp.imageIndex,
        FrameEvent.queueSubmit
          { waitSemaphores := [Semaphore.imageAvailable s.currentFrame]
            signalSemaphores := [Semaphore.renderFinished s.currentFrame]
            fenceSlot := s.currentFrame },
        FrameEvent.queuePresent
          { waitSemaphores := [Semaphore.renderFinished s.currentFrame]
            imageIndex := inp.imageIndex },
        FrameEvent.recreateEvent],
       StepOutcome.ok { s with
         inFlightFences := s.inFlightFences.set s.currentFrame FenceState.pendingSignal
         framebufferResized := false
         swapChainGeneration := s.swapChainGeneration + 1
         currentFrame := (s.currentFrame + 1) % MAX_FRAMES_IN_FLIGHT }) := by
  unfold drawFrame
  rw [if_neg hf]
  rcases ha with ha | ha <;> rcases hp with hp | hp | hp <;>
    simp [ha, hs, hp, List.set_set]

theorem drawFrame_presentFatal (inp : FrameInputs) (s : LoopState)
    (hf : s.inFlightFences.getD s.currentFrame FenceState.unsignaledIdle ≠ FenceState.unsignaledIdle)
    (ha : inp.acquireResult = VkResult.success ∨ inp.acquireResult = VkResult.suboptimalKHR)
    (hs : inp.submitResult = VkResult.success)
    (hp1 : inp.presentResult ≠ VkResult.errorOutOfDateKHR)
    (hp2 : inp.presentResult ≠ VkResult.suboptimalKHR)
    (hp3 : inp.presentResult ≠ VkResult.success)
    (hr : s.framebufferResized = false) :
    drawFrame inp s =
      ([FrameEvent.waitFence s.currentFrame,
        FrameEvent.acquireImage s.currentFrame s.swapChainGeneration
          (Semaphore.imageAvailable s.currentFrame),
        FrameEvent.updateUniform s.currentFrame, FrameEvent.resetFence s.currentFrame,
        FrameEvent.recordBuffer s.currentFrame inp.imageIndex,
        FrameEvent.queueSubmit
          { waitSemaphores := [Semaphore.imageAvailable s.currentFrame]
            signalSemaphores := [Semaphore.renderFinished s.currentFrame]
            fenceSlot := s.currentFrame },
        FrameEvent.queuePresent
          { waitSemaphores := [Semaphore.renderFinished s.currentFrame]
            imageIndex := inp.imageIndex }],
       StepOutcome.fatal "failed to present swap chain image!") := by
  unfold drawFrame
  rw [if_neg hf]
  rcases ha with ha | ha <;> simp [ha, hs, hp1, hp2, hp3, hr]

/-! ## Fence invariant and reachability -/

/-- A `getD` result differing from the default forces the index to be
in range. -/
theorem getD_ne_default_lt {α : Type} (l : List α) (k : Nat) (d : α)
    (hne : l.getD k d ≠ d) : k < l.length := by
  by_contra hk
  exact hne (List.getD_eq_default l d (Nat.le_of_not_lt hk))

/-- Writing a non-idle fence value preserves non-idleness of every slot. -/
theorem getD_set_ne_idle (l : List FenceState) (i k : Nat) (v : FenceState)
    (hv : v ≠ FenceState.unsignaledIdle)
    (hk : l.getD k FenceState.unsignaledIdle ≠ FenceState.unsignaledIdle) :
    (l.set i v).getD k FenceState.unsignaledIdle ≠ FenceState.unsignaledIdle := by
  have hkl : k < l.length := getD_ne_default_lt l k _ hk
  by_cases hik : i = k
  · subst hik
    rw [List.getD_eq_getElem?_getD, List.getElem?_set_self hkl]
    simpa using hv
  · rw [List.getD_eq_getElem?_getD, List.getElem?_set_ne hik, ← List.getD_eq_getElem?_getD]
    exact hk

/-- Helper for `fenceInvariant_step`: the branches where acquire
reported success or suboptimal. -/
theorem fenceInvariant_step_proceed (inp : FrameInputs) (s s2 : LoopState)
    (hlen : s.inFlightFences.length = MAX_FRAMES_IN_FLIGHT)
    (hcf : s.currentFrame < MAX_FRAMES_IN_FLIGHT)
    (hfen : ∀ k, k < MAX_FRAMES_IN_FLIGHT →
      s.inFlightFences.getD k FenceState.unsignaledIdle ≠ FenceState.unsignaledIdle)
    (ha : inp.acquireResult = VkResult.success ∨ inp.acquireResult = VkResult.suboptimalKHR)
    (hok : (drawFrame inp s).2 = StepOutcome.ok s2) :
    FenceInvariant s2 := by
  have hf := hfen s.currentFrame hcf
  have hmod : (s.currentFrame + 1) % MAX_FRAMES_IN_FLIGHT < MAX_FRAMES_IN_FLIGHT :=
    Nat.mod_lt _ (by decide)
  by_cases hs : inp.submitResult = VkResult.success
  · by_cases hp : inp.presentResult = VkResult.errorOutOfDateKHR ∨
        inp.presentResult = VkResult.suboptimalKHR ∨ s.framebufferResized = true
    · rw [drawFrame_presentRecreate inp s hf ha hs hp] at hok
      simp only [StepOutcome.ok.injEq] at hok
      subst hok
      refine ⟨by simpa using hlen, hmod, fun k hk => ?_⟩
      exact getD_set_ne_idle _ _ _ _ (by simp) (hfen k hk)
    · push_neg at hp
      obtain ⟨hp1, hp2, hp3⟩ := hp
      have hr : s.framebufferResized = false := by
        revert hp3
        cases s.framebufferResized <;> simp
      by_cases hps : inp.presentResult = VkResult.success
      · rw [drawFrame_presentSuccess inp s hf ha hs hps hr] at hok
        simp only [StepOutcome.ok.injEq] at hok
        subst hok
        refine ⟨by simpa using hlen, hmod, fun k hk => ?_⟩
        exact getD_set_ne_idle _ _ _ _ (by simp) (hfen k hk)
      · rw [drawFrame_presentFatal inp s hf ha hs hp1 hp2 hps hr] at hok
        cases hok
  · rw [drawFrame_submitFatal inp s hf ha hs] at hok
    cases hok

/-- Every successful `drawFrame` step preserves `FenceInvariant`. -/
theorem fenceInvariant_step (inp : FrameInputs) (s s2 : LoopState)
    (hinv : FenceInvariant s) (hok : (drawFrame inp s).2 = StepOutcome.ok s2) :
    FenceInvariant s2 := by
  obtain ⟨hlen, hcf, hfen⟩ := hinv
  have hf := hfen s.currentFrame hcf
  by_cases ha : inp.acquireResult = VkResult.errorOutOfDateKHR
  · rw [drawFrame_staleAcquire inp s hf ha] at hok
    simp only [StepOutcome.ok.injEq] at hok
    subst hok
    refine ⟨by simpa using hlen, hcf, fun k hk => ?_⟩
    exact getD_set_ne_idle _ _ _ _ (by simp) (hfen k hk)
  · by_cases ha2 : inp.acquireResult = VkResult.success
    · exact fenceInvariant_step_proceed inp s s2 hlen hcf hfen (Or.inl ha2) hok
    · by_cases ha3 : inp.acquireResult = VkResult.suboptimalKHR
      · exact fenceInvariant_step_proceed inp s s2 hlen hcf hfen (Or.inr ha3) hok
      · rw [drawFrame_fatalAcquire inp s hf ha ha2 ha3] at hok
        cases hok

/-- Invariant `FenceInvariant` holds in every reachable state. -/
theorem reachable_fenceInvariant {s : LoopState} (hreach : Reachable s) :
    FenceInvariant s := by
  induction hreach with
  | init => exact ⟨by decide, by decide, by decide⟩
  | frame inp hr hok ih => exact fenceInvariant_step _ _ _ ih hok
  | resize hr ih => exact ⟨ih.1, ih.2.1, ih.2.2⟩

/-- When the slot fence is signaled or pending, `drawFrame` does not
block. -/
theorem drawFrame_not_blocked (inp : FrameInputs) (s : LoopState)
    (hf : s.inFlightFences.getD s.currentFrame FenceState.unsignaledIdle ≠
      FenceState.unsignaledIdle) :
    (drawFrame inp s).2 ≠ StepOutcome.blocked := by
  by_cases ha : inp.acquireResult = VkResult.errorOutOfDateKHR
  · rw [drawFrame_staleAcquire inp s hf ha]
    simp
  · have proceed : inp.acquireResult = VkResult.success ∨
        inp.acquireResult = VkResult.suboptimalKHR →
        (drawFrame inp s).2 ≠ StepOutcome.blocked := by
      intro hacq
      by_cases hs : inp.submitResult = VkResult.success
      · by_cases hp : inp.presentResult = VkResult.errorOutOfDateKHR ∨
            inp.presentResult = VkResult.suboptimalKHR ∨ s.framebufferResized = true
        · rw [drawFrame_presentRecreate inp s hf hacq hs hp]
          simp
        · push_neg at hp
          obtain ⟨hp1, hp2, hp3⟩ := hp
          have hr : s.framebufferResized = false := by
            revert hp3
            cases s.framebufferResized <;> simp
          by_cases hps : inp.presentResult = VkResult.success
          · rw [drawFrame_presentSuccess inp s hf hacq hs hps hr]
            simp
          · rw [drawFrame_presentFatal inp s hf hacq hs hp1 hp2 hps hr]
            simp
      · rw [drawFrame_submitFatal inp s hf hacq hs]
        simp
    by_cases ha2 : inp.acquireResult = VkResult.success
    · exact proceed (Or.inl ha2)
    · by_cases ha3 : inp.acquireResult = VkResult.suboptimalKHR
      · exact proceed (Or.inr ha3)
      · rw [drawFrame_fatalAcquire inp s hf ha ha2 ha3]
        simp

/-- Running `M` steady-state iterations (acquire, submit, present all
`VK_SUCCESS`, no resize pending) finishes normally, advances
`currentFrame` by `M` modulo `MAX_FRAMES_IN_FLIGHT`, keeps the same
swapchain, and performs exactly `M` submits, `M` presents and no
recreation. -/
theorem runLoop_steady (M : Nat) :
    ∀ (s : LoopState), FenceInvariant s → s.framebufferResized = false →
    ∃ tr s2, runLoop (List.replicate M steadyInput) s = (tr, RunResult.finished s2) ∧
      s2.currentFrame = (s.currentFrame + M) % MAX_FRAMES_IN_FLIGHT ∧
      s2.swapChainGeneration = s.swapChainGeneration ∧
      tr.countP isSubmitEvent = M ∧
      tr.countP isPresentEvent = M ∧
      FrameEvent.recreateEvent ∉ tr := by
  induction M with
  | zero =>
    intro s hinv hr
    refine ⟨[], s, by simp [runLoop], ?_, rfl, by simp, by simp, by simp⟩
    have hcf := hinv.2.1
    simp only [MAX_FRAMES_IN_FLIGHT] at hcf ⊢
    omega
  | succ M ih =>
    intro s hinv hr
    obtain ⟨hlen, hcf, hfen⟩ := hinv
    have hf := hfen s.currentFrame hcf
    have hstep := drawFrame_presentSuccess steadyInput s hf (Or.inl rfl) rfl rfl hr
    have hinv1 : FenceInvariant { s with
        inFlightFences := s.inFlightFences.set s.currentFrame FenceState.pendingSignal
        currentFrame := (s.currentFrame + 1) % MAX_FRAMES_IN_FLIGHT } :=
      fenceInvariant_step steadyInput s _ ⟨hlen, hcf, hfen⟩ (by rw [hstep])
    obtain ⟨tr, s2, hrun, hcf2, hgen, hcs, hcp, hnr⟩ := ih _ hinv1 hr
    refine ⟨(drawFrame steadyInput s).1 ++ tr, s2, ?_, ?_, ?_, ?_, ?_, ?_⟩
    · rw [List.replicate_succ]
      simp only [runLoop]
      rw [hstep]
      simp [hrun]
    · rw [hcf2]
      simp only [MAX_FRAMES_IN_FLIGHT]
      omega
    · rw [hgen]
    · rw [hstep]
      simp [List.countP_append, hcs, List.countP_cons, isSubmitEvent]
    · rw [hstep]
      simp [List.countP_append, hcp, List.countP_cons, isPresentEvent]
    · rw [hstep]
      simp only [List.mem_append, List.mem_cons]
      rintro (h | h) <;> simp_all [isSubmitEvent]

/-- Enumeration of the successful (`StepOutcome.ok`) results of
`drawFrame`: stale acquire, present-triggered recreation, or plain
success. -/
theorem drawFrame_ok_cases (inp : FrameInputs) (s s2 : LoopState)
    (hok : (drawFrame inp s).2 = StepOutcome.ok s2) :
    (inp.acquireResult = VkResult.errorOutOfDateKHR ∧
      s2 = { s with inFlightFences := s.inFlightFences.set s.currentFrame FenceState.signaled
                    swapChainGeneration := s.swapChainGeneration + 1 }) ∨
    ((inp.acquireResult = VkResult.success ∨ inp.acquireResult = VkResult.suboptimalKHR) ∧
      inp.submitResult = VkResult.success ∧
      (((inp.presentResult = VkResult.errorOutOfDateKHR ∨
         inp.presentResult = VkResult.suboptimalKHR ∨ s.framebufferResized = true) ∧
        s2 = { s with inFlightFences := s.inFlightFences.set s.currentFrame FenceState.pendingSignal
                      framebufferResized := false
                      swapChainGeneration := s.swapChainGeneration + 1
                      currentFrame := (s.currentFrame + 1) % MAX_FRAMES_IN_FLIGHT }) ∨
       (inp.presentResult = VkResult.success ∧ s.framebufferResized = false ∧
        s2 = { s with inFlightFences := s.inFlightFences.set s.currentFrame FenceState.pendingSignal
                      currentFrame := (s.currentFrame + 1) % MAX_FRAMES_IN_FLIGHT }))) := by
  by_cases hfi : s.inFlightFences.getD s.currentFrame FenceState.unsignaledIdle =
      FenceState.unsignaledIdle
  · rw [drawFrame_blocked inp s hfi] at hok
    cases hok
  · by_cases ha : inp.acquireResult = VkResult.errorOutOfDateKHR
    · rw [drawFrame_staleAcquire inp s hfi ha] at hok
      simp only [StepOutcome.ok.injEq] at hok
      exact Or.inl ⟨ha, hok.symm⟩
    · have hacq : inp.acquireResult = VkResult.success ∨
          inp.acquireResult = VkResult.suboptimalKHR := by
        by_cases ha2 : inp.acquireResult = VkResult.success
        · exact Or.inl ha2
        · by_cases ha3 : inp.acquireResult = VkResult.suboptimalKHR
          · exact Or.inr ha3
          · rw [drawFrame_fatalAcquire inp s hfi ha ha2 ha3] at hok
            cases hok
      by_cases hs : inp.submitResult = VkResult.success
      · by_cases hp : inp.presentResult = VkResult.errorOutOfDateKHR ∨
            inp.presentResult = VkResult.suboptimalKHR ∨ s.framebufferResized = true
        · rw [drawFrame_presentRecreate inp s hfi hacq hs hp] at hok
          simp only [StepOutcome.ok.injEq] at hok
          exact Or.inr ⟨hacq, hs, Or.inl ⟨hp, hok.symm⟩⟩
        · push_neg at hp
          obtain ⟨hp1, hp2, hp3⟩ := hp
          have hr : s.framebufferResized = false := by
            revert hp3
            cases s.framebufferResized <;> simp
          by_cases hps : inp.presentResult = VkResult.success
          · rw [drawFrame_presentSuccess inp s hfi hacq hs hps hr] at hok
            simp only [StepOutcome.ok.injEq] at hok
            exact Or.inr ⟨hacq, hs, Or.inr ⟨hps, hr, hok.symm⟩⟩
          · rw [drawFrame_presentFatal inp s hfi hacq hs hp1 hp2 hps hr] at hok
            cases hok
      · rw [drawFrame_submitFatal inp s hfi hacq hs] at hok
        cases hok

/-- Enumeration of the possible call traces of one `drawFrame`
iteration. -/
theorem drawFrame_trace_cases (inp : FrameInputs) (s : LoopState) :
    (drawFrame inp s).1 = [FrameEvent.waitFence s.currentFrame] ∨
    (drawFrame inp s).1 =
      [FrameEvent.waitFence s.currentFrame,
       FrameEvent.acquireImage s.currentFrame s.swapChainGeneration
         (Semaphore.imageAvailable s.currentFrame)] ∨
    (drawFrame inp s).1 =
      [FrameEvent.waitFence s.currentFrame,
       FrameEvent.acquireImage s.currentFrame s.swapChainGeneration
         (Semaphore.imageAvailable s.currentFrame),
       FrameEvent.recreateEvent] ∨
    ∃ tail,
      ((tail = [] ∨ tail =
          [FrameEvent.queuePresent
            { waitSemaphores := [Semaphore.renderFinished s.currentFrame]
              imageIndex := inp.imageIndex }] ∨ tail =
          [FrameEvent.queuePresent
            { waitSemaphores := [Semaphore.renderFinished s.currentFrame]
              imageIndex := inp.imageIndex },
           FrameEvent.recreateEvent]) ∧
       (drawFrame inp s).1 =
        [FrameEvent.waitFence s.currentFrame,
         FrameEvent.acquireImage s.currentFrame s.swapChainGeneration
           (Semaphore.imageAvailable s.currentFrame),
         FrameEvent.updateUniform s.currentFrame, FrameEvent.resetFence s.currentFrame,
         FrameEvent.recordBuffer s.currentFrame inp.imageIndex,
         FrameEvent.queueSubmit
           { waitSemaphores := [Semaphore.imageAvailable s.currentFrame]
             signalSemaphores := [Semaphore.renderFinished s.currentFrame]
             fenceSlot := s.currentFrame }] ++ tail) := by
  by_cases hfi : s.inFlightFences.getD s.currentFrame FenceState.unsignaledIdle =
      FenceState.unsignaledIdle
  · rw [drawFrame_blocked inp s hfi]
    exact Or.inl rfl
  · by_cases ha : inp.acquireResult = VkResult.errorOutOfDateKHR
    · rw [drawFrame_staleAcquire inp s hfi ha]
      exact Or.inr (Or.inr (Or.inl rfl))
    · by_cases hacq : inp.acquireResult = VkResult.success ∨
          inp.acquireResult = VkResult.suboptimalKHR
      · by_cases hs : inp.submitResult = VkResult.success
        · by_cases hp : inp.presentResult = VkResult.errorOutOfDateKHR ∨
              inp.presentResult = VkResult.suboptimalKHR ∨ s.framebufferResized = true
          · rw [drawFrame_presentRecreate inp s hfi hacq hs hp]
            exact Or.inr (Or.inr (Or.inr ⟨_, Or.inr (Or.inr rfl), rfl⟩))
          · push_neg at hp
            obtain ⟨hp1, hp2, hp3⟩ := hp
            have hr : s.framebufferResized = false := by
              revert hp3
              cases s.framebufferResized <;> simp
            by_cases hps : inp.presentResult = VkResult.success
            · rw [drawFrame_presentSuccess inp s hfi hacq hs hps hr]
              exact Or.inr (Or.inr (Or.inr ⟨_, Or.inr (Or.inl rfl), rfl⟩))
            · rw [drawFrame_presentFatal inp s hfi hacq hs hp1 hp2 hps hr]
              exact Or.inr (Or.inr (Or.inr ⟨_, Or.inr (Or.inl rfl), rfl⟩))
        · rw [drawFrame_submitFatal inp s hfi hacq hs]
          exact Or.inr (Or.inr (Or.inr ⟨[], Or.inl rfl, by simp⟩))
      · push_neg at hacq
        rw [drawFrame_fatalAcquire inp s hfi ha hacq.1 hacq.2]
        exact Or.inr (Or.inl rfl)

/-- Any `queueSubmit` event in a `drawFrame` trace carries exactly the
wiring the source builds: wait on `imageAvailableSemaphores[cf]`, signal
`renderFinishedSemaphores[cf]`, fence `inFlightFences[cf]`. -/
theorem queueSubmit_info (inp : FrameInputs) (s : LoopState) (si : SubmitInfo)
    (hmem : FrameEvent.queueSubmit si ∈ (drawFrame inp s).1) :
    si = { waitSemaphores := [Semaphore.imageAvailable s.currentFrame]
           signalSemaphores := [Semaphore.renderFinished s.currentFrame]
           fenceSlot := s.currentFrame } := by
  rcases drawFrame_trace_cases inp s with h | h | h | ⟨tail, htail, h⟩ <;> rw [h] at hmem
  · simp at hmem
  · simp at hmem
  · simp at hmem
  · rcases htail with rfl | rfl | rfl <;> simpa using hmem

/-- Any `queuePresent` event in a `drawFrame` trace waits exactly on
`renderFinishedSemaphores[cf]`. -/
theorem queuePresent_info (inp : FrameInputs) (s : LoopState) (pinfo : PresentInfo)
    (hmem : FrameEvent.queuePresent pinfo ∈ (drawFrame inp s).1) :
    pinfo = { waitSemaphores := [Semaphore.renderFinished s.currentFrame]
              imageIndex := inp.imageIndex } := by
  rcases drawFrame_trace_cases inp s with h | h | h | ⟨tail, htail, h⟩ <;> rw [h] at hmem
  · simp at hmem
  · simp at hmem
  · simp at hmem
  · rcases htail with rfl | rfl | rfl
    · simp at hmem
    · simpa using hmem
    · simpa using hmem

/-- Recreation is triggered exactly on a stale acquire, or on a
completed submit whose present is stale/suboptimal or finds the resize
flag set. -/
theorem drawFrame_recreate_iff (inp : FrameInputs) (s : LoopState)
    (hf : s.inFlightFences.getD s.currentFrame FenceState.unsignaledIdle ≠
      FenceState.unsignaledIdle) :
    FrameEvent.recreateEvent ∈ (drawFrame inp s).1 ↔
      (inp.acquireResult = VkResult.errorOutOfDateKHR ∨
       ((inp.acquireResult = VkResult.success ∨ inp.acquireResult = VkResult.suboptimalKHR) ∧
        inp.submitResult = VkResult.success ∧
        (inp.presentResult = VkResult.errorOutOfDateKHR ∨
         inp.presentResult = VkResult.suboptimalKHR ∨ s.framebufferResized = true))) := by
  by_cases ha : inp.acquireResult = VkResult.errorOutOfDateKHR
  · rw [drawFrame_staleAcquire inp s hf ha]
    exact iff_of_true (by simp) (Or.inl ha)
  · by_cases hacq : inp.acquireResult = VkResult.success ∨
        inp.acquireResult = VkResult.suboptimalKHR
    · by_cases hs : inp.submitResult = VkResult.success
      · by_cases hp : inp.presentResult = VkResult.errorOutOfDateKHR ∨
            inp.presentResult = VkResult.suboptimalKHR ∨ s.framebufferResized = true
        · rw [drawFrame_presentRecreate inp s hf hacq hs hp]
          exact iff_of_true (by simp) (Or.inr ⟨hacq, hs, hp⟩)
        · push_neg at hp
          obtain ⟨hp1, hp2, hp3⟩ := hp
          have hr : s.framebufferResized = false := by
            revert hp3
            cases s.framebufferResized <;> simp
          have hnot : ¬(inp.acquireResult = VkResult.errorOutOfDateKHR ∨
              ((inp.acquireResult = VkResult.success ∨
                inp.acquireResult = VkResult.suboptimalKHR) ∧
               inp.submitResult = VkResult.success ∧
               (inp.presentResult = VkResult.errorOutOfDateKHR ∨
                inp.presentResult = VkResult.suboptimalKHR ∨
                s.framebufferResized = true))) := by
            rintro (hX | ⟨hacq2, hs2, hpX | hpX | hpX⟩)
            · exact ha hX
            · exact hp1 hpX
            · exact hp2 hpX
            · rw [hr] at hpX
              cases hpX
          by_cases hps : inp.presentResult = VkResult.success
          · rw [drawFrame_presentSuccess inp s hf hacq hs hps hr]
            exact iff_of_false (by simp) hnot
          · rw [drawFrame_presentFatal inp s hf hacq hs hp1 hp2 hps hr]
            exact iff_of_false (by simp) hnot
      · rw [drawFrame_submitFatal inp s hf hacq hs]
        refine iff_of_false (by simp) ?_
        rintro (hX | ⟨hacq2, hs2, hpX⟩)
        · exact ha hX
        · exact hs hs2
    · push_neg at hacq
      rw [drawFrame_fatalAcquire inp s hf ha hacq.1 hacq.2]
      refine iff_of_false (by simp) ?_
      rintro (hX | ⟨hacq2, hs2, hpX⟩)
      · exact ha hX
      · rcases hacq2 with h2 | h2
        · exact hacq.1 h2
        · exact hacq.2 h2

/-- The thrown exceptions of one iteration, exactly: unexpected acquire
result, failed submit, unexpected present result. -/
theorem drawFrame_fatal_iff (inp : FrameInputs) (s : LoopState)
    (hf : s.inFlightFences.getD s.currentFrame FenceState.unsignaledIdle ≠
      FenceState.unsignaledIdle) (msg : String) :
    (drawFrame inp s).2 = StepOutcome.fatal msg ↔
      ((inp.acquireResult ≠ VkResult.errorOutOfDateKHR ∧
        inp.acquireResult ≠ VkResult.success ∧ inp.acquireResult ≠ VkResult.suboptimalKHR) ∧
       msg = "failed to acquire swap chain image!") ∨
      (((inp.acquireResult = VkResult.success ∨ inp.acquireResult = VkResult.suboptimalKHR) ∧
        inp.submitResult ≠ VkResult.success) ∧
       msg = "failed to submit draw command buffer!") ∨
      (((inp.acquireResult = VkResult.success ∨ inp.acquireResult = VkResult.suboptimalKHR) ∧
        inp.submitResult = VkResult.success ∧
        inp.presentResult ≠ VkResult.errorOutOfDateKHR ∧
        inp.presentResult ≠ VkResult.suboptimalKHR ∧
        inp.presentResult ≠ VkResult.success ∧ s.framebufferResized = false) ∧
       msg = "failed to present swap chain image!") := by
  by_cases ha : inp.acquireResult = VkResult.errorOutOfDateKHR
  · rw [drawFrame_staleAcquire inp s hf ha]
    refine iff_of_false (by simp) ?_
    rintro (⟨⟨hX, _⟩, _⟩ | ⟨⟨hacq2, _⟩, _⟩ | ⟨⟨hacq2, _⟩, _⟩)
    · exact hX ha
    · rcases hacq2 with h2 | h2 <;> rw [ha] at h2 <;> cases h2
    · rcases hacq2 with h2 | h2 <;> rw [ha] at h2 <;> cases h2
  · by_cases hacq : inp.acquireResult = VkResult.success ∨
        inp.acquireResult = VkResult.suboptimalKHR
    · by_cases hs : inp.submitResult = VkResult.success
      · by_cases hp : inp.presentResult = VkResult.errorOutOfDateKHR ∨
            inp.presentResult = VkResult.suboptimalKHR ∨ s.framebufferResized = true
        · rw [drawFrame_presentRecreate inp s hf hacq hs hp]
          refine iff_of_false (by simp) ?_
          rintro (⟨⟨_, hX2, hX3⟩, _⟩ | ⟨⟨_, hs2⟩, _⟩ | ⟨⟨_, _, hpa, hpb, _, hrX⟩, _⟩)
          · rcases hacq with h2 | h2
            · exact hX2 h2
            · exact hX3 h2
          · exact hs2 hs
          · rcases hp with hpX | hpX | hpX
            · exact hpa hpX
            · exact hpb hpX
            · rw [hrX] at hpX
              cases hpX
        · push_neg at hp
          obtain ⟨hp1, hp2, hp3⟩ := hp
          have hr : s.framebufferResized = false := by
            revert hp3
            cases s.framebufferResized <;> simp
          by_cases hps : inp.presentResult = VkResult.success
          · rw [drawFrame_presentSuccess inp s hf hacq hs hps hr]
            refine iff_of_false (by simp) ?_
            rintro (⟨⟨_, hX2, hX3⟩, _⟩ | ⟨⟨_, hs2⟩, _⟩ | ⟨⟨_, _, _, _, hpc, _⟩, _⟩)
            · rcases hacq with h2 | h2
              · exact hX2 h2
              · exact hX3 h2
            · exact hs2 hs
            · exact hpc hps
          · rw [drawFrame_presentFatal inp s hf hacq hs hp1 hp2 hps hr]
            simp only [StepOutcome.fatal.injEq]
            constructor
            · intro hm
              exact Or.inr (Or.inr ⟨⟨hacq, hs, hp1, hp2, hps, hr⟩, hm.symm⟩)
            · rintro (⟨⟨_, hX2, hX3⟩, _⟩ | ⟨⟨_, hs2⟩, _⟩ | ⟨_, hm⟩)
              · rcases hacq with h2 | h2
                · exact absurd h2 hX2
                · exact absurd h2 hX3
              · exact absurd hs hs2
              · exact hm.symm
      · rw [drawFrame_submitFatal inp s hf hacq hs]
        simp only [StepOutcome.fatal.injEq]
        constructor
        · intro hm
          exact Or.inr (Or.inl ⟨⟨hacq, hs⟩, hm.symm⟩)
        · rintro (⟨⟨_, hX2, hX3⟩, _⟩ | ⟨_, hm⟩ | ⟨⟨_, hs2, _⟩, _⟩)
          · rcases hacq with h2 | h2
            · exact absurd h2 hX2
            · exact absurd h2 hX3
          · exact hm.symm
          · exact absurd hs2 hs
    · push_neg at hacq
      rw [drawFrame_fatalAcquire inp s hf ha hacq.1 hacq.2]
      simp only [StepOutcome.fatal.injEq]
      constructor
      · intro hm
        exact Or.inl ⟨⟨ha, hacq.1, hacq.2⟩, hm.symm⟩
      · rintro (⟨_, hm⟩ | ⟨⟨hacq2, _⟩, _⟩ | ⟨⟨hacq2, _⟩, _⟩)
        · exact hm.symm
        · rcases hacq2 with h2 | h2
          · exact absurd h2 hacq.1
          · exact absurd h2 hacq.2
        · rcases hacq2 with h2 | h2
          · exact absurd h2 hacq.1
          · exact absurd h2 hacq.2

/-- A thrown exception in `drawFrame` ends the run at once: the
remaining iterations are not executed and the message propagates. -/
theorem runLoop_aborts (inp : FrameInputs) (rest : List FrameInputs) (s : LoopState)
    (msg : String) (hfat : (drawFrame inp s).2 = StepOutcome.fatal msg) :
    (runLoop (inp :: rest) s).2 = RunResult.aborted msg := by
  have hpair : drawFrame inp s = ((drawFrame inp s).1, StepOutcome.fatal msg) := by
    rw [← hfat]
  simp only [runLoop]
  rw [hpair]

/-- Function `main` catches a propagated exception, prints it and returns
`EXIT_FAILURE`. -/
theorem mainOutcome_aborted (inputs : List FrameInputs) (msg : String)
    (h : (runLoop inputs initialLoopState).2 = RunResult.aborted msg) :
    mainOutcome inputs = some (EXIT_FAILURE, some msg) := by
  unfold mainOutcome
  rw [h]

/-! ## Claims -/

/-- C1, counterexample: the claim says `currentFrame` is advanced at the
end of every iteration, including iterations whose recreation is
triggered by a stale ACQUIRE.  False: from the initial state
(`currentFrame = 0`), an iteration whose acquire reports
`VK_ERROR_OUT_OF_DATE_KHR` triggers recreation yet ends with
`currentFrame = 0`, not `(0 + 1) % MAX_FRAMES_IN_FLIGHT = 1`: the early
`return` skips the advance. -/
theorem claim1_counterexample :
    FrameEvent.recreateEvent ∈
      (drawFrame { acquireResult := VkResult.errorOutOfDateKHR, imageIndex := 0,
                   submitResult := VkResult.success, presentResult := VkResult.success }
        initialLoopState).1 ∧
    (drawFrame { acquireResult := VkResult.errorOutOfDateKHR, imageIndex := 0,
                 submitResult := VkResult.success, presentResult := VkResult.success }
        initialLoopState).2 =
      StepOutcome.ok { currentFrame := 0, framebufferResized := false, swapChainGeneration := 1,
                       inFlightFences := [FenceState.signaled, FenceState.signaled] } ∧
    ¬ (0 : Nat) = (0 + 1) % MAX_FRAMES_IN_FLIGHT := by decide

/-- C1, amended: at the end of every iteration of `drawFrame` that
completes without an exception, the frame index is advanced to
`(currentFrame + 1) mod MAX_FRAMES_IN_FLIGHT` — including iterations in
which a recreation is triggered by a stale or suboptimal PRESENT —
except iterations abandoned by a stale ACQUIRE, whose early return
leaves `currentFrame` unchanged. -/
theorem claim1_frame_index_advance (inp : FrameInputs) (s s2 : LoopState)
    (hok : (drawFrame inp s).2 = StepOutcome.ok s2) :
    (inp.acquireResult = VkResult.errorOutOfDateKHR → s2.currentFrame = s.currentFrame) ∧
    (inp.acquireResult ≠ VkResult.errorOutOfDateKHR →
      s2.currentFrame = (s.currentFrame + 1) % MAX_FRAMES_IN_FLIGHT) := by
  rcases drawFrame_ok_cases inp s s2 hok with ⟨ha, rfl⟩ |
    ⟨hacq, hs, ⟨hp, rfl⟩ | ⟨hp, hr, rfl⟩⟩
  · exact ⟨fun _ => rfl, fun hn => absurd ha hn⟩
  · refine ⟨fun hX => ?_, fun _ => rfl⟩
    rcases hacq with h2 | h2 <;> rw [hX] at h2 <;> cases h2
  · refine ⟨fun hX => ?_, fun _ => rfl⟩
    rcases hacq with h2 | h2 <;> rw [hX] at h2 <;> cases h2

/-- Witness for C1 at a concrete input: a steady-state iteration from
the initial state advances `currentFrame` from 0 to 1. -/
theorem claim1_witness :
    (steadyInput.acquireResult = VkResult.errorOutOfDateKHR →
      ({ currentFrame := 1, framebufferResized := false, swapChainGeneration := 0,
         inFlightFences := [FenceState.pendingSignal, FenceState.signaled] } :
          LoopState).currentFrame = initialLoopState.currentFrame) ∧
    (steadyInput.acquireResult ≠ VkResult.errorOutOfDateKHR →
      ({ currentFrame := 1, framebufferResized := false, swapChainGeneration := 0,
         inFlightFences := [FenceState.pendingSignal, FenceState.signaled] } :
          LoopState).currentFrame =
        (initialLoopState.currentFrame + 1) % MAX_FRAMES_IN_FLIGHT) :=
  claim1_frame_index_advance steadyInput initialLoopState _ (by decide)

/-- C2, counterexample: the claim says a suboptimal ACQUIRE flags a
recreation that is then triggered after PRESENT.  False: with
`VK_SUBOPTIMAL_KHR` at acquire, a successful present and no pending
resize, the iteration records, submits and presents but triggers no
recreation at all — nothing was flagged at ACQUIRE. -/
theorem claim2_counterexample :
    FrameEvent.recreateEvent ∉
      (drawFrame { acquireResult := VkResult.suboptimalKHR, imageIndex := 0,
                   submitResult := VkResult.success, presentResult := VkResult.success }
        initialLoopState).1 ∧
    FrameEvent.recordBuffer 0 0 ∈
      (drawFrame { acquireResult := VkResult.suboptimalKHR, imageIndex := 0,
                   submitResult := VkResult.success, presentResult := VkResult.success }
        initialLoopState).1 ∧
    (drawFrame { acquireResult := VkResult.suboptimalKHR, imageIndex := 0,
                 submitResult := VkResult.success, presentResult := VkResult.success }
        initialLoopState).2 =
      StepOutcome.ok { currentFrame := 1, framebufferResized := false, swapChainGeneration := 0,
                       inFlightFences := [FenceState.pendingSignal, FenceState.signaled] } := by
  decide

/-- C2, amended: if ACQUIRE returns the suboptimal outcome, the
iteration proceeds to RECORD/SUBMIT/PRESENT exactly as on success; no
recreation flag is set by the ACQUIRE step, and a recreation after
PRESENT is triggered exactly when the present result itself is
out-of-date or suboptimal, or an external resize is pending. -/
theorem claim2_suboptimal_acquire (inp : FrameInputs) (s : LoopState)
    (hf : s.inFlightFences.getD s.currentFrame FenceState.unsignaledIdle ≠
      FenceState.unsignaledIdle)
    (ha : inp.acquireResult = VkResult.suboptimalKHR)
    (hs : inp.submitResult = VkResult.success) :
    FrameEvent.recordBuffer s.currentFrame inp.imageIndex ∈ (drawFrame inp s).1 ∧
    (∃ si, FrameEvent.queueSubmit si ∈ (drawFrame inp s).1) ∧
    (∃ pinfo, FrameEvent.queuePresent pinfo ∈ (drawFrame inp s).1) ∧
    (FrameEvent.recreateEvent ∈ (drawFrame inp s).1 ↔
      (inp.presentResult = VkResult.errorOutOfDateKHR ∨
       inp.presentResult = VkResult.suboptimalKHR ∨ s.framebufferResized = true)) := by
  have hiff := drawFrame_recreate_iff inp s hf
  have hmem : FrameEvent.recordBuffer s.currentFrame inp.imageIndex ∈ (drawFrame inp s).1 ∧
      (∃ si, FrameEvent.queueSubmit si ∈ (drawFrame inp s).1) ∧
      (∃ pinfo, FrameEvent.queuePresent pinfo ∈ (drawFrame inp s).1) := by
    by_cases hp : inp.presentResult = VkResult.errorOutOfDateKHR ∨
        inp.presentResult = VkResult.suboptimalKHR ∨ s.framebufferResized = true
    · rw [drawFrame_presentRecreate inp s hf (Or.inr ha) hs hp]
      refine ⟨by simp,
        ⟨{ waitSemaphores := [Semaphore.imageAvailable s.currentFrame]
           signalSemaphores := [Semaphore.renderFinished s.currentFrame]
           fenceSlot := s.currentFrame }, by simp⟩,
        ⟨{ waitSemaphores := [Semaphore.renderFinished s.currentFrame]
           imageIndex := inp.imageIndex }, by simp⟩⟩
    · push_neg at hp
      obtain ⟨hp1, hp2, hp3⟩ := hp
      have hr : s.framebufferResized = false := by
        revert hp3
        cases s.framebufferResized <;> simp
      by_cases hps : inp.presentResult = VkResult.success
      · rw [drawFrame_presentSuccess inp s hf (Or.inr ha) hs hps hr]
        refine ⟨by simp,
        ⟨{ waitSemaphores := [Semaphore.imageAvailable s.currentFrame]
           signalSemaphores := [Semaphore.renderFinished s.currentFrame]
           fenceSlot := s.currentFrame }, by simp⟩,
        ⟨{ waitSemaphores := [Semaphore.renderFinished s.currentFrame]
           imageIndex := inp.imageIndex }, by simp⟩⟩
      · rw [drawFrame_presentFatal inp s hf (Or.inr ha) hs hp1 hp2 hps hr]
        refine ⟨by simp,
        ⟨{ waitSemaphores := [Semaphore.imageAvailable s.currentFrame]
           signalSemaphores := [Semaphore.renderFinished s.currentFrame]
           fenceSlot := s.currentFrame }, by simp⟩,
        ⟨{ waitSemaphores := [Semaphore.renderFinished s.currentFrame]
           imageIndex := inp.imageIndex }, by simp⟩⟩
  refine ⟨hmem.1, hmem.2.1, hmem.2.2, ?_⟩
  rw [hiff]
  constructor
  · rintro (hX | ⟨_, _, hgoal⟩)
    · rw [ha] at hX
      cases hX
    · exact hgoal
  · intro hgoal
    exact Or.inr ⟨Or.inr ha, hs, hgoal⟩

/-- Witness for C2 at a concrete input: suboptimal acquire, stale
present, from the initial state. -/
theorem claim2_witness :
    FrameEvent.recordBuffer initialLoopState.currentFrame 0 ∈
      (drawFrame { acquireResult := VkResult.suboptimalKHR, imageIndex := 0,
                   submitResult := VkResult.success,
                   presentResult := VkResult.errorOutOfDateKHR } initialLoopState).1 ∧
    (∃ si, FrameEvent.queueSubmit si ∈
      (drawFrame { acquireResult := VkResult.suboptimalKHR, imageIndex := 0,
                   submitResult := VkResult.success,
                   presentResult := VkResult.errorOutOfDateKHR } initialLoopState).1) ∧
    (∃ pinfo, FrameEvent.queuePresent pinfo ∈
      (drawFrame { acquireResult := VkResult.suboptimalKHR, imageIndex := 0,
                   submitResult := VkResult.success,
                   presentResult := VkResult.errorOutOfDateKHR } initialLoopState).1) ∧
    (FrameEvent.recreateEvent ∈
      (drawFrame { acquireResult := VkResult.suboptimalKHR, imageIndex := 0,
                   submitResult := VkResult.success,
                   presentResult := VkResult.errorOutOfDateKHR } initialLoopState).1 ↔
      (VkResult.errorOutOfDateKHR = VkResult.errorOutOfDateKHR ∨
       VkResult.errorOutOfDateKHR = VkResult.suboptimalKHR ∨
       initialLoopState.framebufferResized = true)) :=
  claim2_suboptimal_acquire
    { acquireResult := VkResult.suboptimalKHR, imageIndex := 0,
      submitResult := VkResult.success, presentResult := VkResult.errorOutOfDateKHR }
    initialLoopState (by decide) rfl rfl

/-- C3: starting from `currentFrame = 0`, after `M` complete iterations
in which acquire and present both succeed and no recreation is
triggered, `currentFrame = M mod MAX_FRAMES_IN_FLIGHT` (so over 10 such
iterations it cycles 0,1,0,1,...), and the `M` iterations perform
exactly `M` submits and `M` presents and no recreation. -/
theorem claim3_steady_state (M : Nat) :
    ∃ tr sM,
      runLoop (List.replicate M steadyInput) initialLoopState = (tr, RunResult.finished sM) ∧
      sM.currentFrame = M % MAX_FRAMES_IN_FLIGHT ∧
      tr.countP isSubmitEvent = M ∧
      tr.countP isPresentEvent = M ∧
      FrameEvent.recreateEvent ∉ tr := by
  obtain ⟨tr, sM, h1, h2, h3, h4, h5, h6⟩ :=
    runLoop_steady M initialLoopState ⟨by decide, by decide, by decide⟩ rfl
  exact ⟨tr, sM, h1, by simpa [initialLoopState] using h2, h4, h5, h6⟩

/-- C4: a stale ACQUIRE (`VK_ERROR_OUT_OF_DATE_KHR`) abandons the
iteration: no command-buffer recording, no submit and no present happen,
the recreation protocol runs exactly once, `drawFrame` returns, and a
following steady iteration starts again at WAIT and proceeds normally
(one submit, one present, no recreation) against the new swapchain
generation. -/
theorem claim4_stale_acquire_abandons (inp : FrameInputs) (s : LoopState)
    (hinv : FenceInvariant s) (hr : s.framebufferResized = false)
    (ha : inp.acquireResult = VkResult.errorOutOfDateKHR) :
    (∀ k i, FrameEvent.recordBuffer k i ∉ (drawFrame inp s).1) ∧
    (∀ si, FrameEvent.queueSubmit si ∉ (drawFrame inp s).1) ∧
    (∀ pinfo, FrameEvent.queuePresent pinfo ∉ (drawFrame inp s).1) ∧
    (drawFrame inp s).1.countP isRecreateEvent = 1 ∧
    (drawFrame inp s).2 = StepOutcome.ok { s with
        inFlightFences := s.inFlightFences.set s.currentFrame FenceState.signaled
        swapChainGeneration := s.swapChainGeneration + 1 } ∧
    (∃ tr2 s3,
      drawFrame steadyInput { s with
          inFlightFences := s.inFlightFences.set s.currentFrame FenceState.signaled
          swapChainGeneration := s.swapChainGeneration + 1 } = (tr2, StepOutcome.ok s3) ∧
      tr2.head? = some (FrameEvent.waitFence s.currentFrame) ∧
      FrameEvent.acquireImage s.currentFrame (s.swapChainGeneration + 1)
        (Semaphore.imageAvailable s.currentFrame) ∈ tr2 ∧
      tr2.countP isSubmitEvent = 1 ∧
      tr2.countP isPresentEvent = 1 ∧
      FrameEvent.recreateEvent ∉ tr2) := by
  obtain ⟨hlen, hcf, hfen⟩ := hinv
  have hf := hfen s.currentFrame hcf
  have hstale := drawFrame_staleAcquire inp s hf ha
  have hok : (drawFrame inp s).2 = StepOutcome.ok { s with
      inFlightFences := s.inFlightFences.set s.currentFrame FenceState.signaled
      swapChainGeneration := s.swapChainGeneration + 1 } := by
    rw [hstale]
  have hinv1 : FenceInvariant { s with
      inFlightFences := s.inFlightFences.set s.currentFrame FenceState.signaled
      swapChainGeneration := s.swapChainGeneration + 1 } :=
    fenceInvariant_step inp s _ ⟨hlen, hcf, hfen⟩ hok
  have hf1 := hinv1.2.2 _ hinv1.2.1
  have hnext := drawFrame_presentSuccess steadyInput _ hf1 (Or.inl rfl) rfl rfl hr
  refine ⟨?_, ?_, ?_, ?_, hok, ?_⟩
  · intro k i
    rw [hstale]
    simp
  · intro si
    rw [hstale]
    simp
  · intro pinfo
    rw [hstale]
    simp
  · rw [hstale]
    simp [isRecreateEvent]
  · refine ⟨_, _, hnext, ?_, ?_, ?_, ?_, ?_⟩
    · rfl
    · simp
    · simp [List.countP_cons, isSubmitEvent]
    · simp [List.countP_cons, isPresentEvent]
    · simp

/-- Witness for C4 at a concrete input: stale acquire from the initial
state. -/
theorem claim4_witness :
    (∀ k i, FrameEvent.recordBuffer k i ∉
      (drawFrame { acquireResult := VkResult.errorOutOfDateKHR, imageIndex := 0,
                   submitResult := VkResult.success, presentResult := VkResult.success }
        initialLoopState).1) ∧
    (∀ si, FrameEvent.queueSubmit si ∉
      (drawFrame { acquireResult := VkResult.errorOutOfDateKHR, imageIndex := 0,
                   submitResult := VkResult.success, presentResult := VkResult.success }
        initialLoopState).1) ∧
    (∀ pinfo, FrameEvent.queuePresent pinfo ∉
      (drawFrame { acquireResult := VkResult.errorOutOfDateKHR, imageIndex := 0,
                   submitResult := VkResult.success, presentResult := VkResult.success }
        initialLoopState).1) ∧
    (drawFrame { acquireResult := VkResult.errorOutOfDateKHR, imageIndex := 0,
                 submitResult := VkResult.success, presentResult := VkResult.success }
      initialLoopState).1.countP isRecreateEvent = 1 ∧
    (drawFrame { acquireResult := VkResult.errorOutOfDateKHR, imageIndex := 0,
                 submitResult := VkResult.success, presentResult := VkResult.success }
      initialLoopState).2 = StepOutcome.ok { initialLoopState with
        inFlightFences := initialLoopState.inFlightFences.set initialLoopState.currentFrame
          FenceState.signaled
        swapChainGeneration := initialLoopState.swapChainGeneration + 1 } ∧
    (∃ tr2 s3,
      drawFrame steadyInput { initialLoopState with
          inFlightFences := initialLoopState.inFlightFences.set initialLoopState.currentFrame
            FenceState.signaled
          swapChainGeneration := initialLoopState.swapChainGeneration + 1 } =
        (tr2, StepOutcome.ok s3) ∧
      tr2.head? = some (FrameEvent.waitFence initialLoopState.currentFrame) ∧
      FrameEvent.acquireImage initialLoopState.currentFrame
        (initialLoopState.swapChainGeneration + 1)
        (Semaphore.imageAvailable initialLoopState.currentFrame) ∈ tr2 ∧
      tr2.countP isSubmitEvent = 1 ∧
      tr2.countP isPresentEvent = 1 ∧
      FrameEvent.recreateEvent ∉ tr2) :=
  claim4_stale_acquire_abandons
    { acquireResult := VkResult.errorOutOfDateKHR, imageIndex := 0,
      submitResult := VkResult.success, presentResult := VkResult.success }
    initialLoopState ⟨by decide, by decide, by decide⟩ rfl rfl

/-- C5: within the frame loop, recreation is triggered exactly by
acquire/present staleness (or a pending resize observed at PRESENT);
every other non-success status — a failed submit, or an acquire/present
result that is neither success, suboptimal nor out-of-date — throws the
corresponding `std::runtime_error`, which ends the run immediately (no
retry) and propagates to `main`, which prints the diagnostic and
returns `EXIT_FAILURE` (non-zero). -/
theorem claim5_failure_semantics (inp : FrameInputs) (s : LoopState)
    (hf : s.inFlightFences.getD s.currentFrame FenceState.unsignaledIdle ≠
      FenceState.unsignaledIdle) :
    (FrameEvent.recreateEvent ∈ (drawFrame inp s).1 ↔
      (inp.acquireResult = VkResult.errorOutOfDateKHR ∨
       ((inp.acquireResult = VkResult.success ∨ inp.acquireResult = VkResult.suboptimalKHR) ∧
        inp.submitResult = VkResult.success ∧
        (inp.presentResult = VkResult.errorOutOfDateKHR ∨
         inp.presentResult = VkResult.suboptimalKHR ∨ s.framebufferResized = true)))) ∧
    (∀ msg, (drawFrame inp s).2 = StepOutcome.fatal msg ↔
      ((inp.acquireResult ≠ VkResult.errorOutOfDateKHR ∧
        inp.acquireResult ≠ VkResult.success ∧ inp.acquireResult ≠ VkResult.suboptimalKHR) ∧
       msg = "failed to acquire swap chain image!") ∨
      (((inp.acquireResult = VkResult.success ∨ inp.acquireResult = VkResult.suboptimalKHR) ∧
        inp.submitResult ≠ VkResult.success) ∧
       msg = "failed to submit draw command buffer!") ∨
      (((inp.acquireResult = VkResult.success ∨ inp.acquireResult = VkResult.suboptimalKHR) ∧
        inp.submitResult = VkResult.success ∧
        inp.presentResult ≠ VkResult.errorOutOfDateKHR ∧
        inp.presentResult ≠ VkResult.suboptimalKHR ∧
        inp.presentResult ≠ VkResult.success ∧ s.framebufferResized = false) ∧
       msg = "failed to present swap chain image!")) ∧
    (∀ rest msg, (drawFrame inp s).2 = StepOutcome.fatal msg →
      (runLoop (inp :: rest) s).2 = RunResult.aborted msg) ∧
    (∀ inputs msg, (runLoop inputs initialLoopState).2 = RunResult.aborted msg →
      mainOutcome inputs = some (EXIT_FAILURE, some msg)) ∧
    EXIT_FAILURE ≠ EXIT_SUCCESS :=
  ⟨drawFrame_recreate_iff inp s hf, fun msg => drawFrame_fatal_iff inp s hf msg,
   fun rest msg hmsg => runLoop_aborts inp rest s msg hmsg,
   fun inputs msg hmsg => mainOutcome_aborted inputs msg hmsg, by decide⟩

/-- Witness for C5 at a concrete input: an unexpected acquire error
code (modeled `VkResult.errorOther 3`) from the initial state. -/
theorem claim5_witness :
    (FrameEvent.recreateEvent ∈
      (drawFrame { acquireResult := VkResult.errorOther 3, imageIndex := 0,
                   submitResult := VkResult.success, presentResult := VkResult.success }
        initialLoopState).1 ↔
      (({ acquireResult := VkResult.errorOther 3, imageIndex := 0,
          submitResult := VkResult.success, presentResult := VkResult.success } :
            FrameInputs).acquireResult = VkResult.errorOutOfDateKHR ∨
       ((({ acquireResult := VkResult.errorOther 3, imageIndex := 0,
            submitResult := VkResult.success, presentResult := VkResult.success } :
              FrameInputs).acquireResult = VkResult.success ∨
         ({ acquireResult := VkResult.errorOther 3, imageIndex := 0,
            submitResult := VkResult.success, presentResult := VkResult.success } :
              FrameInputs).acquireResult = VkResult.suboptimalKHR) ∧
        ({ acquireResult := VkResult.errorOther 3, imageIndex := 0,
           submitResult := VkResult.success, presentResult := VkResult.success } :
             FrameInputs).submitResult = VkResult.success ∧
        (({ acquireResult := VkResult.errorOther 3, imageIndex := 0,
            submitResult := VkResult.success, presentResult := VkResult.success } :
              FrameInputs).presentResult = VkResult.errorOutOfDateKHR ∨
         ({ acquireResult := VkResult.errorOther 3, imageIndex := 0,
            submitResult := VkResult.success, presentResult := VkResult.success } :
              FrameInputs).presentResult = VkResult.suboptimalKHR ∨
         initialLoopState.framebufferResized = true)))) ∧
    (∀ msg, (drawFrame { acquireResult := VkResult.errorOther 3, imageIndex := 0,
                         submitResult := VkResult.success, presentResult := VkResult.success }
        initialLoopState).2 = StepOutcome.fatal msg ↔
      ((({ acquireResult := VkResult.errorOther 3, imageIndex := 0,
           submitResult := VkResult.success, presentResult := VkResult.success } :
             FrameInputs).acquireResult ≠ VkResult.errorOutOfDateKHR ∧
        ({ acquireResult := VkResult.errorOther 3, imageIndex := 0,
           submitResult := VkResult.success, presentResult := VkResult.success } :
             FrameInputs).acquireResult ≠ VkResult.success ∧
        ({ acquireResult := VkResult.errorOther 3, imageIndex := 0,
           submitResult := VkResult.success, presentResult := VkResult.success } :
             FrameInputs).acquireResult ≠ VkResult.suboptimalKHR) ∧
       msg = "failed to acquire swap chain image!") ∨
      (((({ acquireResult := VkResult.errorOther 3, imageIndex := 0,
            submitResult := VkResult.success, presentResult := VkResult.success } :
              FrameInputs).acquireResult = VkResult.success ∨
         ({ acquireResult := VkResult.errorOther 3, imageIndex := 0,
            submitResult := VkResult.success, presentResult := VkResult.success } :
              FrameInputs).acquireResult = VkResult.suboptimalKHR) ∧
        ({ acquireResult := VkResult.errorOther 3, imageIndex := 0,
           submitResult := VkResult.success, presentResult := VkResult.success } :
             FrameInputs).submitResult ≠ VkResult.success) ∧
       msg = "failed to submit draw command buffer!") ∨
      (((({ acquireResult := VkResult.errorOther 3, imageIndex := 0,
            submitResult := VkResult.success, presentResult := VkResult.success } :
              FrameInputs).acquireResult = VkResult.success ∨
         ({ acquireResult := VkResult.errorOther 3, imageIndex := 0,
            submitResult := VkResult.success, presentResult := VkResult.success } :
              FrameInputs).acquireResult = VkResult.suboptimalKHR) ∧
        ({ acquireResult := VkResult.errorOther 3, imageIndex := 0,
           submitResult := VkResult.success, presentResult := VkResult.success } :
             FrameInputs).submitResult = VkResult.success ∧
        ({ acquireResult := VkResult.errorOther 3, imageIndex := 0,
           submitResult := VkResult.success, presentResult := VkResult.success } :
             FrameInputs).presentResult ≠ VkResult.errorOutOfDateKHR ∧
        ({ acquireResult := VkResult.errorOther 3, imageIndex := 0,
           submitResult := VkResult.success, presentResult := VkResult.success } :
             FrameInputs).presentResult ≠ VkResult.suboptimalKHR ∧
        ({ acquireResult := VkResult.errorOther 3, imageIndex := 0,
           submitResult := VkResult.success, presentResult := VkResult.success } :
             FrameInputs).presentResult ≠ VkResult.success ∧
        initialLoopState.framebufferResized = false) ∧
       msg = "failed to present swap chain image!")) ∧
    (∀ rest msg,
      (drawFrame { acquireResult := VkResult.errorOther 3, imageIndex := 0,
                   submitResult := VkResult.success, presentResult := VkResult.success }
        initialLoopState).2 = StepOutcome.fatal msg →
      (runLoop ({ acquireResult := VkResult.errorOther 3, imageIndex := 0,
                  submitResult := VkResult.success, presentResult := VkResult.success } :: rest)
        initialLoopState).2 = RunResult.aborted msg) ∧
    (∀ inputs msg, (runLoop inputs initialLoopState).2 = RunResult.aborted msg →
      mainOutcome inputs = some (EXIT_FAILURE, some msg)) ∧
    EXIT_FAILURE ≠ EXIT_SUCCESS :=
  claim5_failure_semantics
    { acquireResult := VkResult.errorOther 3, imageIndex := 0,
      submitResult := VkResult.success, presentResult := VkResult.success }
    initialLoopState (by decide)

/-- C9: the synchronization wiring of every submitted frame: the submit
of slot `k` waits on `imageAvailableSemaphores[k]` and signals
`renderFinishedSemaphores[k]`, and the present waits on
`renderFinishedSemaphores[k]`; hence in every schedule consistent with
the semaphore semantics, the image-available signal strictly precedes
the gated submit execution, the submit execution strictly precedes the
render-finished signal, and the render-finished signal strictly
precedes the gated present execution — independent of control-thread
timing. -/
theorem claim9_signal_ordering (inp : FrameInputs) (s : LoopState) (si : SubmitInfo)
    (pinfo : PresentInfo) (sch : GpuSchedule)
    (hsi : FrameEvent.queueSubmit si ∈ (drawFrame inp s).1)
    (hpi : FrameEvent.queuePresent pinfo ∈ (drawFrame inp s).1)
    (hsch : ValidSchedule si pinfo sch) :
    si.waitSemaphores = [Semaphore.imageAvailable s.currentFrame] ∧
    si.signalSemaphores = [Semaphore.renderFinished s.currentFrame] ∧
    pinfo.waitSemaphores = [Semaphore.renderFinished s.currentFrame] ∧
    sch.semSignalTime (Semaphore.imageAvailable s.currentFrame) < sch.submitExecTime ∧
    sch.submitExecTime < sch.semSignalTime (Semaphore.renderFinished s.currentFrame) ∧
    sch.semSignalTime (Semaphore.renderFinished s.currentFrame) < sch.presentExecTime ∧
    sch.semSignalTime (Semaphore.imageAvailable s.currentFrame) <
      sch.semSignalTime (Semaphore.renderFinished s.currentFrame) := by
  obtain rfl := queueSubmit_info inp s si hsi
  obtain rfl := queuePresent_info inp s pinfo hpi
  obtain ⟨h1, h2, h3⟩ := hsch
  have hA := h1 (Semaphore.imageAvailable s.currentFrame) (by simp)
  have hB := h2 (Semaphore.renderFinished s.currentFrame) (by simp)
  have hC := h3 (Semaphore.renderFinished s.currentFrame) (by simp)
  exact ⟨rfl, rfl, rfl, hA, hB, hC, lt_trans hA hB⟩

/-- Witness for C9 at a concrete input: the steady iteration from the
initial state with an explicit schedule (image-available signaled at 0,
submit at 1, render-finished at 2, present at 3). -/
theorem claim9_witness :
    ({ waitSemaphores := [Semaphore.imageAvailable 0]
       signalSemaphores := [Semaphore.renderFinished 0]
       fenceSlot := 0 } : SubmitInfo).waitSemaphores =
        [Semaphore.imageAvailable initialLoopState.currentFrame] ∧
    ({ waitSemaphores := [Semaphore.imageAvailable 0]
       signalSemaphores := [Semaphore.renderFinished 0]
       fenceSlot := 0 } : SubmitInfo).signalSemaphores =
        [Semaphore.renderFinished initialLoopState.currentFrame] ∧
    ({ waitSemaphores := [Semaphore.renderFinished 0]
       imageIndex := 0 } : PresentInfo).waitSemaphores =
        [Semaphore.renderFinished initialLoopState.currentFrame] ∧
    ({ semSignalTime := fun sem =>
         match sem with
         | Semaphore.imageAvailable _ => 0
         | Semaphore.renderFinished _ => 2
       submitExecTime := 1
       presentExecTime := 3 } : GpuSchedule).semSignalTime
        (Semaphore.imageAvailable initialLoopState.currentFrame) <
      ({ semSignalTime := fun sem =>
           match sem with
           | Semaphore.imageAvailable _ => 0
           | Semaphore.renderFinished _ => 2
         submitExecTime := 1
         presentExecTime := 3 } : GpuSchedule).submitExecTime ∧
    ({ semSignalTime := fun sem =>
         match sem with
         | Semaphore.imageAvailable _ => 0
         | Semaphore.renderFinished _ => 2
       submitExecTime := 1
       presentExecTime := 3 } : GpuSchedule).submitExecTime <
      ({ semSignalTime := fun sem =>
           match sem with
           | Semaphore.imageAvailable _ => 0
           | Semaphore.renderFinished _ => 2
         submitExecTime := 1
         presentExecTime := 3 } : GpuSchedule).semSignalTime
        (Semaphore.renderFinished initialLoopState.currentFrame) ∧
    ({ semSignalTime := fun sem =>
         match sem with
         | Semaphore.imageAvailable _ => 0
         | Semaphore.renderFinished _ => 2
       submitExecTime := 1
       presentExecTime := 3 } : GpuSchedule).semSignalTime
        (Semaphore.renderFinished initialLoopState.currentFrame) <
      ({ semSignalTime := fun sem =>
           match sem with
           | Semaphore.imageAvailable _ => 0
           | Semaphore.renderFinished _ => 2
         submitExecTime := 1
         presentExecTime := 3 } : GpuSchedule).presentExecTime ∧
    ({ semSignalTime := fun sem =>
         match sem with
         | Semaphore.imageAvailable _ => 0
         | Semaphore.renderFinished _ => 2
       submitExecTime := 1
       presentExecTime := 3 } : GpuSchedule).semSignalTime
        (Semaphore.imageAvailable initialLoopState.currentFrame) <
      ({ semSignalTime := fun sem =>
           match sem with
           | Semaphore.imageAvailable _ => 0
           | Semaphore.renderFinished _ => 2
         submitExecTime := 1
         presentExecTime := 3 } : GpuSchedule).semSignalTime
        (Semaphore.renderFinished initialLoopState.currentFrame) :=
  claim9_signal_ordering steadyInput initialLoopState
    { waitSemaphores := [Semaphore.imageAvailable 0]
      signalSemaphores := [Semaphore.renderFinished 0]
      fenceSlot := 0 }
    { waitSemaphores := [Semaphore.renderFinished 0], imageIndex := 0 }
    { semSignalTime := fun sem =>
        match sem with
        | Semaphore.imageAvailable _ => 0
        | Semaphore.renderFinished _ => 2
      submitExecTime := 1
      presentExecTime := 3 }
    (by decide) (by decide) ⟨by decide, by decide, by decide⟩

/-- C10: in every reachable state of the frame loop, no slot fence is
unsignaled without an already-enqueued submission that will signal it:
the fences are created signaled, the stale-acquire early return leaves
the waited fence signaled, and consequently the WAIT step can never
block forever. -/
theorem claim10_fence_liveness (s : LoopState) (hreach : Reachable s) :
    (∀ k, k < MAX_FRAMES_IN_FLIGHT →
      s.inFlightFences.getD k FenceState.unsignaledIdle ≠ FenceState.unsignaledIdle) ∧
    initialLoopState.inFlightFences =
      List.replicate MAX_FRAMES_IN_FLIGHT FenceState.signaled ∧
    (∀ inp s2, inp.acquireResult = VkResult.errorOutOfDateKHR →
      (drawFrame inp s).2 = StepOutcome.ok s2 →
      s2.inFlightFences.getD s.currentFrame FenceState.unsignaledIdle =
        FenceState.signaled) ∧
    (∀ inp, (drawFrame inp s).2 ≠ StepOutcome.blocked) := by
  obtain ⟨hlen, hcf, hfen⟩ := reachable_fenceInvariant hreach
  refine ⟨hfen, rfl, ?_, ?_⟩
  · intro inp s2 ha hok
    rcases drawFrame_ok_cases inp s s2 hok with ⟨_, rfl⟩ | ⟨hacq, _, _⟩
    · have hcl : s.currentFrame < s.inFlightFences.length := by
        rw [hlen]
        exact hcf
      simp [List.getD_eq_getElem?_getD, List.getElem?_set_self hcl]
    · rcases hacq with h2 | h2 <;> rw [ha] at h2 <;> cases h2
  · intro inp
    exact drawFrame_not_blocked inp s (hfen _ hcf)

/-- Witness for C10 at the initial state. -/
theorem claim10_witness :
    (∀ k, k < MAX_FRAMES_IN_FLIGHT →
      initialLoopState.inFlightFences.getD k FenceState.unsignaledIdle ≠
        FenceState.unsignaledIdle) ∧
    initialLoopState.inFlightFences =
      List.replicate MAX_FRAMES_IN_FLIGHT FenceState.signaled ∧
    (∀ inp s2, inp.acquireResult = VkResult.errorOutOfDateKHR →
      (drawFrame inp initialLoopState).2 = StepOutcome.ok s2 →
      s2.inFlightFences.getD initialLoopState.currentFrame FenceState.unsignaledIdle =
        FenceState.signaled) ∧
    (∀ inp, (drawFrame inp initialLoopState).2 ≠ StepOutcome.blocked) :=
  claim10_fence_liveness initialLoopState Reachable.init

/-! ## The recreation protocol -/

/-- Every action emitted by the degenerate-surface loop is a
framebuffer-size query or an event wait. -/
theorem pollLoop_benign (sizes : List Extent2D) :
    ∀ (e : Extent2D), ∀ a ∈ (pollLoop e sizes).1, BenignAction a := by
  induction sizes with
  | nil =>
    intro e a ha
    unfold pollLoop at ha
    split_ifs at ha <;> simp at ha
  | cons e2 rest ih =>
    intro e a ha
    unfold pollLoop at ha
    split_ifs at ha with hcond
    · simp only [List.mem_cons] at ha
      rcases ha with rfl | rfl | ha
      · exact Or.inr ⟨e2, rfl⟩
      · exact Or.inl rfl
      · exact ih e2 a ha
    · simp at ha

/-- When the degenerate-surface loop exits, the extent it exits with is
non-degenerate, and — unless it was already the extent the loop was
entered with — it was returned by one of the emitted queries. -/
theorem pollLoop_some_nonzero (sizes : List Extent2D) :
    ∀ (e ef : Extent2D), (pollLoop e sizes).2 = some ef →
      ef.width ≠ 0 ∧ ef.height ≠ 0 ∧
      (ef = e ∨ Action.queryFramebufferSize ef ∈ (pollLoop e sizes).1) := by
  induction sizes with
  | nil =>
    intro e ef h
    unfold pollLoop at h ⊢
    split_ifs at h ⊢ with hcond
    push_neg at hcond
    cases h
    exact ⟨hcond.1, hcond.2, Or.inl rfl⟩
  | cons e2 rest ih =>
    intro e ef h
    unfold pollLoop at h ⊢
    split_ifs at h ⊢ with hcond
    · simp only at h
      obtain ⟨h1, h2, h3⟩ := ih e2 ef h
      refine ⟨h1, h2, Or.inr ?_⟩
      rcases h3 with rfl | h3
      · simp
      · simp only [List.mem_cons]
        exact Or.inr (Or.inr h3)
    · push_neg at hcond
      cases h
      exact ⟨hcond.1, hcond.2, Or.inl rfl⟩

/-- Decomposition of a completed `recreateSwapChain` run: a benign
query/wait prefix containing a non-degenerate query, then
`vkDeviceWaitIdle`, then the destruction trace of `cleanupSwapChain`,
then the creation traces of `createSwapChain`, `createImageViews`,
`createFramebuffers`; the resulting state is the composition of those
three creations. -/
theorem recreateSwapChain_some (caps : SurfaceCaps) (win : Extent2D)
    (sizes : List Extent2D) (s s2 : AppState)
    (h : (recreateSwapChain caps win sizes s).2 = some s2) :
    ∃ qtr ef,
      (∀ a ∈ qtr, BenignAction a) ∧
      Action.queryFramebufferSize ef ∈ qtr ∧
      ef.width ≠ 0 ∧ ef.height ≠ 0 ∧
      s2 = (createFramebuffers (createImageViews (createSwapChain caps win s).2).2).2 ∧
      (recreateSwapChain caps win sizes s).1 =
        qtr ++ Action.deviceWaitIdle ::
          ((cleanupSwapChain s).1 ++ (createSwapChain caps win s).1
            ++ (createImageViews (createSwapChain caps win s).2).1
            ++ (createFramebuffers (createImageViews (createSwapChain caps win s).2).2).1) := by
  unfold recreateSwapChain at h ⊢
  match hsz : sizes with
  | [] => cases h
  | e0 :: rest =>
    simp only at h ⊢
    match hp : (pollLoop e0 rest).2 with
    | none =>
      rw [hp] at h
      cases h
    | some ef =>
      rw [hp] at h
      simp only [Option.some.injEq] at h
      obtain ⟨h1, h2, h3⟩ := pollLoop_some_nonzero rest e0 ef hp
      refine ⟨Action.queryFramebufferSize e0 :: (pollLoop e0 rest).1, ef, ?_, ?_, h1, h2, ?_, ?_⟩
      · intro a ha
        simp only [List.mem_cons] at ha
        rcases ha with rfl | ha
        · exact Or.inr ⟨e0, rfl⟩
        · exact pollLoop_benign rest e0 a ha
      · rcases h3 with rfl | h3
        · simp
        · simp only [List.mem_cons]
          exact Or.inr h3
      · exact h.symm
      · simp [cleanupSwapChain]

/-- Function `applyTrace` distributes over trace concatenation. -/
theorem applyTrace_append (l : Ledger) (t1 t2 : List Action) :
    applyTrace l (t1 ++ t2) = applyTrace (applyTrace l t1) t2 := by
  simp [applyTrace]

/-- Benign actions leave the ledger unchanged. -/
theorem applyTrace_benign (tr : List Action) :
    ∀ (l : Ledger), (∀ a ∈ tr, BenignAction a) → applyTrace l tr = l := by
  induction tr with
  | nil => intro l _; rfl
  | cons a t ih =>
    intro l hb
    have ha := hb a (by simp)
    have hstep : applyAction l a = l := by
      rcases ha with rfl | ⟨e, rfl⟩ <;> rfl
    show applyTrace (applyAction l a) t = l
    rw [hstep]
    exact ih l fun x hx => hb x (List.mem_cons_of_mem _ hx)

/-- Destroying a list of framebuffers erases exactly those handles. -/
theorem applyTrace_destroyFramebuffers (xs : List Nat) :
    ∀ (l : Ledger), applyTrace l (xs.map Action.destroyFramebuffer) =
      { l with liveFramebuffers := xs.foldl (fun acc hh => acc.erase hh) l.liveFramebuffers } := by
  induction xs with
  | nil => intro l; rfl
  | cons x t ih =>
    intro l
    show applyTrace (applyAction l (Action.destroyFramebuffer x)) (t.map Action.destroyFramebuffer) = _
    rw [ih]
    rfl

/-- Destroying a list of image views erases exactly those handles. -/
theorem applyTrace_destroyImageViews (xs : List Nat) :
    ∀ (l : Ledger), applyTrace l (xs.map Action.destroyImageView) =
      { l with liveImageViews := xs.foldl (fun acc hh => acc.erase hh) l.liveImageViews } := by
  induction xs with
  | nil => intro l; rfl
  | cons x t ih =>
    intro l
    show applyTrace (applyAction l (Action.destroyImageView x)) (t.map Action.destroyImageView) = _
    rw [ih]
    rfl

/-- Creating a list of image views appends exactly those handles. -/
theorem applyTrace_createImageViews (xs : List Nat) :
    ∀ (l : Ledger), applyTrace l (xs.map Action.createImageView) =
      { l with liveImageViews := l.liveImageViews ++ xs } := by
  induction xs with
  | nil => intro l; simp [applyTrace]
  | cons x t ih =>
    intro l
    show applyTrace (applyAction l (Action.createImageView x)) (t.map Action.createImageView) = _
    rw [ih]
    simp [applyAction]

/-- Creating a list of framebuffers appends exactly those handles. -/
theorem applyTrace_createFramebuffers (xs : List Nat) :
    ∀ (l : Ledger), applyTrace l (xs.map Action.createFramebuffer) =
      { l with liveFramebuffers := l.liveFramebuffers ++ xs } := by
  induction xs with
  | nil => intro l; simp [applyTrace]
  | cons x t ih =>
    intro l
    show applyTrace (applyAction l (Action.createFramebuffer x)) (t.map Action.createFramebuffer) = _
    rw [ih]
    simp [applyAction]

/-- Erasing every element of a list from itself, in order, empties it. -/
theorem foldl_erase_self : ∀ xs : List Nat, xs.foldl (fun acc hh => acc.erase hh) xs = [] := by
  intro xs
  induction xs with
  | nil => rfl
  | cons x t ih =>
    show t.foldl (fun acc hh => acc.erase hh) ((x :: t).erase x) = []
    rw [List.erase_cons_head]
    exact ih

/-- Function `cleanupSwapChain` leaves the device with no live swapchain-derived
objects when the ledger matched the application state before. -/
theorem applyTrace_cleanup (s : AppState) (l : Ledger) (hL : MatchesLedger s l) :
    applyTrace l (cleanupSwapChain s).1 =
      { liveFramebuffers := [], liveImageViews := [], liveSwapchains := [] } := by
  obtain ⟨h1, h2, h3⟩ := hL
  show applyTrace l (s.swapChainFramebuffers.map Action.destroyFramebuffer
    ++ s.swapChainImageViews.map Action.destroyImageView
    ++ [Action.destroySwapchain s.swapChain]) = _
  rw [applyTrace_append, applyTrace_append, applyTrace_destroyFramebuffers,
    applyTrace_destroyImageViews]
  simp only [h1, h2, foldl_erase_self]
  show applyAction _ (Action.destroySwapchain s.swapChain) = _
  simp only [applyAction, h3, List.erase_cons_head]

/-- Ledger effect of `createSwapChain`: one new live swapchain. -/
theorem createSwapChain_ledger (caps : SurfaceCaps) (win : Extent2D) (s1 : AppState)
    (l : Ledger) :
    applyTrace l (createSwapChain caps win s1).1 =
      { l with liveSwapchains :=
          l.liveSwapchains ++ [(createSwapChain caps win s1).2.swapChain] } := rfl

/-- Ledger effect of `createImageViews`: exactly the views recorded in
the resulting state become live. -/
theorem createImageViews_ledger (s1 : AppState) (l : Ledger) :
    applyTrace l (createImageViews s1).1 =
      { l with liveImageViews :=
          l.liveImageViews ++ (createImageViews s1).2.swapChainImageViews } :=
  applyTrace_createImageViews _ l

/-- Ledger effect of `createFramebuffers`: exactly the framebuffers
recorded in the resulting state become live. -/
theorem createFramebuffers_ledger (s1 : AppState) (l : Ledger) :
    applyTrace l (createFramebuffers s1).1 =
      { l with liveFramebuffers :=
          l.liveFramebuffers ++ (createFramebuffers s1).2.swapChainFramebuffers } :=
  applyTrace_createFramebuffers _ l

/-- After a completed recreation the ledger matches the new state: every
old framebuffer, image view and the old swapchain have been destroyed,
and exactly the newly created objects are live — nothing leaks. -/
theorem recreate_matchesLedger (caps : SurfaceCaps) (win : Extent2D)
    (sizes : List Extent2D) (s s2 : AppState) (l : Ledger)
    (h : (recreateSwapChain caps win sizes s).2 = some s2)
    (hL : MatchesLedger s l) :
    MatchesLedger s2 (applyTrace l (recreateSwapChain caps win sizes s).1) := by
  obtain ⟨qtr, ef, hben, hmem, hw, hh, hs2, htr⟩ := recreateSwapChain_some caps win sizes s s2 h
  rw [htr, applyTrace_append, applyTrace_benign qtr l hben]
  show MatchesLedger s2 (applyTrace l ((cleanupSwapChain s).1 ++ (createSwapChain caps win s).1
    ++ (createImageViews (createSwapChain caps win s).2).1
    ++ (createFramebuffers (createImageViews (createSwapChain caps win s).2).2).1))
  rw [applyTrace_append, applyTrace_append, applyTrace_append, applyTrace_cleanup s l hL,
    createSwapChain_ledger, createImageViews_ledger, createFramebuffers_ledger]
  subst hs2
  refine ⟨?_, ?_, ?_⟩ <;> simp [createSwapChain, createImageViews, createFramebuffers]

/-- While no framebuffer-size query has returned a usable extent, the
recreation protocol has only queried and waited. -/
theorem recreateSwapChain_none_benign (caps : SurfaceCaps) (win : Extent2D)
    (sizes : List Extent2D) (s : AppState)
    (hnone : (recreateSwapChain caps win sizes s).2 = none) :
    ∀ a ∈ (recreateSwapChain caps win sizes s).1, BenignAction a := by
  cases sizes with
  | nil =>
    intro a ha
    simp [recreateSwapChain] at ha
  | cons e0 rest =>
    intro a ha
    simp only [recreateSwapChain] at ha
    rcases hp : (pollLoop e0 rest).2 with _ | ef
    · rw [hp] at ha
      simp only [List.mem_cons] at ha
      rcases ha with rfl | ha
      · exact Or.inr ⟨e0, rfl⟩
      · exact pollLoop_benign rest e0 a ha
    · simp only [recreateSwapChain] at hnone
      rw [hp] at hnone
      simp at hnone

/-- C6: whenever the recreation protocol runs while the surface reports
a degenerate (zero-area) extent it blocks, repeatedly re-querying the
extent and waiting on events; no device quiesce, no destruction and no
creation happen before a query has returned an extent with both width
and height non-zero — and if the supplied query results never become
non-degenerate, none of them happen at all. -/
theorem claim6_degenerate_surface_block (caps : SurfaceCaps) (win : Extent2D)
    (sizes : List Extent2D) (s : AppState) :
    ((recreateSwapChain caps win sizes s).2 = none →
      ∀ a ∈ (recreateSwapChain caps win sizes s).1, BenignAction a) ∧
    (∀ s2, (recreateSwapChain caps win sizes s).2 = some s2 →
      ∃ qtr ef rest2,
        (∀ a ∈ qtr, BenignAction a) ∧
        Action.queryFramebufferSize ef ∈ qtr ∧
        ef.width ≠ 0 ∧ ef.height ≠ 0 ∧
        (recreateSwapChain caps win sizes s).1 =
          qtr ++ Action.deviceWaitIdle :: rest2) := by
  constructor
  · exact recreateSwapChain_none_benign caps win sizes s
  · intro s2 h2
    obtain ⟨qtr, ef, hben, hmem, hw, hh, hs2, htr⟩ :=
      recreateSwapChain_some caps win sizes s s2 h2
    exact ⟨qtr, ef, _, hben, hmem, hw, hh, htr⟩

/-- Witness for C6 at a concrete input: the surface reports (0,0) twice
and then (800,600); the protocol completes and all quiesce/destroy/
create work comes after the benign query prefix containing the
non-degenerate query. -/
theorem claim6_witness :
    ∃ qtr ef rest2,
      (∀ a ∈ qtr, BenignAction a) ∧
      Action.queryFramebufferSize ef ∈ qtr ∧
      ef.width ≠ 0 ∧ ef.height ≠ 0 ∧
      (recreateSwapChain sampleCaps sampleWin
        [{ width := 0, height := 0 }, { width := 0, height := 0 },
         { width := 800, height := 600 }] sampleApp).1 =
        qtr ++ Action.deviceWaitIdle :: rest2 :=
  (claim6_degenerate_surface_block sampleCaps sampleWin
    [{ width := 0, height := 0 }, { width := 0, height := 0 },
     { width := 800, height := 600 }] sampleApp).2 sampleApp1 (by decide)

/-- A query or event-wait is not a sync-object create/destroy. -/
theorem benign_not_sync (a : Action) (hb : BenignAction a) : ¬ SyncObjAction a := by
  rcases hb with rfl | ⟨e, rfl⟩ <;>
    rintro (⟨hh2, hX⟩ | ⟨hh2, hX⟩ | ⟨hh2, hX⟩ | ⟨hh2, hX⟩) <;> cases hX

/-- C7: every completed run of the recreation protocol performs, in
this order: the degenerate-surface queries, `vkDeviceWaitIdle`,
destruction of every old framebuffer, then of every old image view,
then of the old swapchain, and only then creation of the new swapchain,
image views and framebuffers; and the device ledger matches the state
after one — and after two successive — recreations, so no image view or
framebuffer leaks. -/
theorem claim7_recreation_order_no_leak (caps caps2 : SurfaceCaps) (win win2 : Extent2D)
    (sizes sizes2 : List Extent2D) (s s1 s2 : AppState) (l : Ledger)
    (h1 : (recreateSwapChain caps win sizes s).2 = some s1)
    (hL : MatchesLedger s l) :
    (∃ qtr,
      (∀ a ∈ qtr, BenignAction a) ∧
      (recreateSwapChain caps win sizes s).1 =
        qtr ++ Action.deviceWaitIdle ::
          (s.swapChainFramebuffers.map Action.destroyFramebuffer
            ++ s.swapChainImageViews.map Action.destroyImageView
            ++ [Action.destroySwapchain s.swapChain]
            ++ (createSwapChain caps win s).1
            ++ (createImageViews (createSwapChain caps win s).2).1
            ++ (createFramebuffers (createImageViews (createSwapChain caps win s).2).2).1)) ∧
    MatchesLedger s1 (applyTrace l (recreateSwapChain caps win sizes s).1) ∧
    ((recreateSwapChain caps2 win2 sizes2 s1).2 = some s2 →
      MatchesLedger s2 (applyTrace (applyTrace l (recreateSwapChain caps win sizes s).1)
        (recreateSwapChain caps2 win2 sizes2 s1).1)) := by
  obtain ⟨qtr, ef, hben, hmem, hw, hh, hs2, htr⟩ := recreateSwapChain_some caps win sizes s s1 h1
  refine ⟨⟨qtr, hben, ?_⟩, ?_, ?_⟩
  · rw [htr]
    simp [cleanupSwapChain, List.append_assoc]
  · exact recreate_matchesLedger caps win sizes s s1 l h1 hL
  · intro h2
    exact recreate_matchesLedger caps2 win2 sizes2 s1 s2 _ h2
      (recreate_matchesLedger caps win sizes s s1 l h1 hL)

/-- C8: recreation rebuilds only the swapchain, its image views and its
framebuffers; the pipeline, pipeline layout, render pass, descriptor
set layout, descriptor sets, command pool, command buffers and the
per-slot semaphores and fences are untouched (both in the state and in
the emitted calls), while `createSyncObjects` creates exactly
sync objects and full teardown destroys each of them. -/
theorem claim8_recreation_scope (caps : SurfaceCaps) (win : Extent2D)
    (sizes : List Extent2D) (s s2 : AppState)
    (hsome : (recreateSwapChain caps win sizes s).2 = some s2) :
    (s2.renderPass = s.renderPass ∧
     s2.descriptorSetLayout = s.descriptorSetLayout ∧
     s2.pipelineLayout = s.pipelineLayout ∧
     s2.graphicsPipeline = s.graphicsPipeline ∧
     s2.commandPool = s.commandPool ∧
     s2.commandBuffers = s.commandBuffers ∧
     s2.descriptorPool = s.descriptorPool ∧
     s2.descriptorSets = s.descriptorSets ∧
     s2.imageAvailableSemaphores = s.imageAvailableSemaphores ∧
     s2.renderFinishedSemaphores = s.renderFinishedSemaphores ∧
     s2.inFlightFences = s.inFlightFences) ∧
    (∀ a ∈ (recreateSwapChain caps win sizes s).1, ¬ SyncObjAction a) ∧
    (∀ s0 : AppState,
      (∀ a ∈ (createSyncObjects s0).1, SyncObjAction a) ∧
      (∀ k, k < MAX_FRAMES_IN_FLIGHT →
        Action.destroySemaphore ((createSyncObjects s0).2.imageAvailableSemaphores.getD k 0) ∈
          cleanupTrace (createSyncObjects s0).2 ∧
        Action.destroySemaphore ((createSyncObjects s0).2.renderFinishedSemaphores.getD k 0) ∈
          cleanupTrace (createSyncObjects s0).2 ∧
        Action.destroyFence ((createSyncObjects s0).2.inFlightFences.getD k 0) ∈
          cleanupTrace (createSyncObjects s0).2)) := by
  obtain ⟨qtr, ef, hben, hmem, hw, hh, hs2, htr⟩ := recreateSwapChain_some caps win sizes s s2 hsome
  refine ⟨?_, ?_, ?_⟩
  · subst hs2
    refine ⟨?_, ?_, ?_, ?_, ?_, ?_, ?_, ?_, ?_, ?_, ?_⟩ <;>
      simp [createSwapChain, createImageViews, createFramebuffers]
  · intro a ha hsync
    rw [htr] at ha
    rcases List.mem_append.mp ha with hq | hrest
    · exact benign_not_sync a (hben a hq) hsync
    · rcases hsync with ⟨hh2, rfl⟩ | ⟨hh2, rfl⟩ | ⟨hh2, rfl⟩ | ⟨hh2, rfl⟩ <;>
        simp [cleanupSwapChain, createSwapChain, createImageViews, createFramebuffers] at hrest
  · intro s0
    constructor
    · intro a ha
      simp [createSyncObjects, MAX_FRAMES_IN_FLIGHT, List.range_succ] at ha
      rcases ha with rfl | rfl | rfl | rfl | rfl | rfl
      · exact Or.inl ⟨_, rfl⟩
      · exact Or.inl ⟨_, rfl⟩
      · exact Or.inr (Or.inl ⟨_, rfl⟩)
      · exact Or.inl ⟨_, rfl⟩
      · exact Or.inl ⟨_, rfl⟩
      · exact Or.inr (Or.inl ⟨_, rfl⟩)
    · intro k hk
      have hk2 : k < 2 := hk
      interval_cases k <;>
        refine ⟨?_, ?_, ?_⟩ <;>
          simp [cleanupTrace, createSyncObjects, cleanupSwapChain,
            MAX_FRAMES_IN_FLIGHT, List.range_succ]

/-- Witness for C7 at a concrete input: two successive recreations of
`sampleApp` against `sampleCaps`, tracked in `sampleLedger`. -/
theorem claim7_witness :
    (∃ qtr,
      (∀ a ∈ qtr, BenignAction a) ∧
      (recreateSwapChain sampleCaps sampleWin [{ width := 800, height := 600 }] sampleApp).1 =
        qtr ++ Action.deviceWaitIdle ::
          (sampleApp.swapChainFramebuffers.map Action.destroyFramebuffer
            ++ sampleApp.swapChainImageViews.map Action.destroyImageView
            ++ [Action.destroySwapchain sampleApp.swapChain]
            ++ (createSwapChain sampleCaps sampleWin sampleApp).1
            ++ (createImageViews (createSwapChain sampleCaps sampleWin sampleApp).2).1
            ++ (createFramebuffers
                 (createImageViews (createSwapChain sampleCaps sampleWin sampleApp).2).2).1)) ∧
    MatchesLedger sampleApp1 (applyTrace sampleLedger
      (recreateSwapChain sampleCaps sampleWin [{ width := 800, height := 600 }] sampleApp).1) ∧
    ((recreateSwapChain sampleCaps sampleWin [{ width := 800, height := 600 }] sampleApp1).2 =
        some sampleApp2 →
      MatchesLedger sampleApp2 (applyTrace (applyTrace sampleLedger
        (recreateSwapChain sampleCaps sampleWin [{ width := 800, height := 600 }] sampleApp).1)
        (recreateSwapChain sampleCaps sampleWin [{ width := 800, height := 600 }] sampleApp1).1)) :=
  claim7_recreation_order_no_leak sampleCaps sampleCaps sampleWin sampleWin
    [{ width := 800, height := 600 }] [{ width := 800, height := 600 }]
    sampleApp sampleApp1 sampleApp2 sampleLedger (by decide) ⟨rfl, rfl, rfl⟩

/-- Witness for C8 at a concrete input: one recreation of `sampleApp`. -/
theorem claim8_witness :
    (sampleApp1.renderPass = sampleApp.renderPass ∧
     sampleApp1.descriptorSetLayout = sampleApp.descriptorSetLayout ∧
     sampleApp1.pipelineLayout = sampleApp.pipelineLayout ∧
     sampleApp1.graphicsPipeline = sampleApp.graphicsPipeline ∧
     sampleApp1.commandPool = sampleApp.commandPool ∧
     sampleApp1.commandBuffers = sampleApp.commandBuffers ∧
     sampleApp1.descriptorPool = sampleApp.descriptorPool ∧
     sampleApp1.descriptorSets = sampleApp.descriptorSets ∧
     sampleApp1.imageAvailableSemaphores = sampleApp.imageAvailableSemaphores ∧
     sampleApp1.renderFinishedSemaphores = sampleApp.renderFinishedSemaphores ∧
     sampleApp1.inFlightFences = sampleApp.inFlightFences) ∧
    (∀ a ∈ (recreateSwapChain sampleCaps sampleWin
        [{ width := 800, height := 600 }] sampleApp).1, ¬ SyncObjAction a) ∧
    (∀ s0 : AppState,
      (∀ a ∈ (createSyncObjects s0).1, SyncObjAction a) ∧
      (∀ k, k < MAX_FRAMES_IN_FLIGHT →
        Action.destroySemaphore ((createSyncObjects s0).2.imageAvailableSemaphores.getD k 0) ∈
          cleanupTrace (createSyncObjects s0).2 ∧
        Action.destroySemaphore ((createSyncObjects s0).2.renderFinishedSemaphores.getD k 0) ∈
          cleanupTrace (createSyncObjects s0).2 ∧
        Action.destroyFence ((createSyncObjects s0).2.inFlightFences.getD k 0) ∈
          cleanupTrace (createSyncObjects s0).2)) :=
  claim8_recreation_scope sampleCaps sampleWin [{ width := 800, height := 600 }]
    sampleApp sampleApp1 (by decide)

end HelloTriangle
